import Mathlib

/-!
Shallow embedding of the device-activity-tracker repository.

The RTT analysis service (`RttAnalyzer`) and the per-device timeout/ACK
bookkeeping of the tracker (`handleProbeTimeout`, `addMeasurementForDevice`,
`determineDeviceState`) are modelled as pure functions over explicit state
records.  JavaScript numbers are modelled as rationals, `Date.now()` as an
explicit `now` parameter (milliseconds since epoch), and each mutable object
as a record threaded through its methods.  Configuration values are the
repository's defaults from `config.ts`.
-/

namespace DeviceTracker

/-- Activity states based on RTT magnitude. -/
inductive ActivityState where
  | Online | Standby | Offline | Calibrating
deriving DecidableEq, Repr

/-- Network type inferred from RTT jitter (`Wi-Fi` is written `WiFi`). -/
inductive NetworkType where
  | WiFi | LTE | Unknown
deriving DecidableEq, Repr

/-- Confidence level for activity classification. -/
inductive ConfidenceLevel where
  | Low | Medium | High
deriving DecidableEq, Repr

/- Default configuration values from `config.ts` (`defaultConfig`). -/
namespace config

def offlineThreshold : ℚ := 10000
def globalHistoryLimit : Nat := 2000
def deviceHistoryLimit : Nat := 50
def slidingWindowSize : Nat := 20
def magnitudePercentile : ℚ := 75
def jitterPercentile : ℚ := 75
def minSamplesForJitter : Nat := 5
def stateConfirmationWindows : Nat := 3
def stateConfirmationSeconds : ℚ := 5
def discardInitialSamples : Nat := 5
def mediumConfidenceTransitions : Nat := 2
def highConfidenceTransitions : Nat := 4
def transitionThresholdPercent : ℚ := 25
def fixedMagnitudeThreshold : ℚ := 800

end config

/-- `RttAnalyzer.THRESHOLD_UPDATE_INTERVAL` (private readonly constant). -/
def THRESHOLD_UPDATE_INTERVAL : Nat := 5

/-- Ascending sort, the model of `[...values].sort((a, b) => a - b)`. -/
def sortRat (l : List ℚ) : List ℚ :=
  l.insertionSort (· ≤ ·)

/-- `RttAnalyzer.calculateMedian`. -/
def calculateMedian (values : List ℚ) : ℚ :=
  if values.length = 0 then 0
  else
    let sorted := sortRat values
    let mid := sorted.length / 2
    if sorted.length % 2 ≠ 0 then sorted.getD mid 0
    else (sorted.getD (mid - 1) 0 + sorted.getD mid 0) / 2

/-- `RttAnalyzer.getPercentile`. -/
def getPercentile (values : List ℚ) (percentile : ℚ) : ℚ :=
  if values.length = 0 then 0
  else
    let sorted := sortRat values
    let index : ℚ := percentile / 100 * ((sorted.length : ℚ) - 1)
    let lower : ℤ := ⌊index⌋
    let upper : ℤ := ⌈index⌉
    if lower = upper then sorted.getD lower.toNat 0
    else
      let fraction : ℚ := index - (lower : ℚ)
      sorted.getD lower.toNat 0 +
        fraction * (sorted.getD upper.toNat 0 - sorted.getD lower.toNat 0)

/-- `RttAnalyzer.calculateIQR`. -/
def calculateIQR (values : List ℚ) : ℚ :=
  if values.length < 4 then 0
  else getPercentile values 75 - getPercentile values 25

/-- `RttAnalyzer.isExtremeOutlier`. -/
def isExtremeOutlier (value : ℚ) (history : List ℚ) : Bool :=
  if history.length < 10 then false
  else
    let q1 := getPercentile history 25
    let q3 := getPercentile history 75
    let iqr := q3 - q1
    decide (value > q3 + 3 * iqr)

/-- The mutable fields of an `RttAnalyzer` instance. -/
structure AnalyzerState where
  slidingWindow : List ℚ
  medianHistory : List ℚ
  jitterHistory : List ℚ
  cachedMagnitudeThreshold : ℚ
  cachedJitterThreshold : ℚ
  lastThresholdUpdateSize : Nat
  discardedSampleCount : Nat
  confirmedActivity : ActivityState
  pendingActivity : Option ActivityState
  activityPendingStartTime : ℚ
  activityWindowCount : Nat
  confirmedNetwork : NetworkType
  pendingNetwork : Option NetworkType
  networkPendingStartTime : ℚ
  networkWindowCount : Nat
  observedTransitions : Nat
  lastStableMedian : ℚ
  transitionInProgress : Bool
deriving DecidableEq, Repr

/-- The field initializers of `new RttAnalyzer()`. -/
def initAnalyzer : AnalyzerState where
  slidingWindow := []
  medianHistory := []
  jitterHistory := []
  cachedMagnitudeThreshold := 0
  cachedJitterThreshold := 0
  lastThresholdUpdateSize := 0
  discardedSampleCount := 0
  confirmedActivity := .Calibrating
  pendingActivity := none
  activityPendingStartTime := 0
  activityWindowCount := 0
  confirmedNetwork := .Unknown
  pendingNetwork := none
  networkPendingStartTime := 0
  networkWindowCount := 0
  observedTransitions := 0
  lastStableMedian := 0
  transitionInProgress := false

/-- `RttAnalyzer.reset` sets every field back to its initializer. -/
def reset (_s : AnalyzerState) : AnalyzerState := initAnalyzer

/-- `RttAnalyzer.addMeasurement`; returns the boolean result and new state. -/
def addMeasurement (s : AnalyzerState) (rtt : ℚ) : Bool × AnalyzerState :=
  if rtt ≤ 0 ∨ rtt > 60000 then (false, s)
  else if s.discardedSampleCount < config.discardInitialSamples then
    (false, { s with discardedSampleCount := s.discardedSampleCount + 1 })
  else
    let w := s.slidingWindow ++ [rtt]
    let w := if w.length > config.slidingWindowSize then w.tail else w
    (true, { s with slidingWindow := w })

/-- Window statistics returned by `RttAnalyzer.calculateWindowStats`. -/
structure WindowStats where
  median : ℚ
  jitter : ℚ
deriving DecidableEq, Repr

/-- `RttAnalyzer.calculateWindowStats`. -/
def calculateWindowStats (s : AnalyzerState) : Option WindowStats :=
  if s.slidingWindow.length < config.minSamplesForJitter then none
  else some { median := calculateMedian s.slidingWindow
              jitter := calculateIQR s.slidingWindow }

/-- `RttAnalyzer.detectTransition`. -/
def detectTransition (s : AnalyzerState) (currentMedian : ℚ) : AnalyzerState :=
  if s.lastStableMedian = 0 then { s with lastStableMedian := currentMedian }
  else
    let changePercent :=
      |currentMedian - s.lastStableMedian| / s.lastStableMedian * 100
    if changePercent ≥ config.transitionThresholdPercent then
      if s.transitionInProgress then s else { s with transitionInProgress := true }
    else if s.transitionInProgress then
      { s with observedTransitions := s.observedTransitions + 1
               lastStableMedian := currentMedian
               transitionInProgress := false }
    else s

/-- `RttAnalyzer.getConfidenceLevel`. -/
def getConfidenceLevel (s : AnalyzerState) : ConfidenceLevel :=
  if s.observedTransitions ≥ config.highConfidenceTransitions then .High
  else if s.observedTransitions ≥ config.mediumConfidenceTransitions then .Medium
  else .Low

/-- `RttAnalyzer.getEffectiveMagnitudeThreshold`. -/
def getEffectiveMagnitudeThreshold (s : AnalyzerState) : ℚ :=
  if (getConfidenceLevel s = .Medium ∨ getConfidenceLevel s = .High) ∧
      s.cachedMagnitudeThreshold > 0 then
    s.cachedMagnitudeThreshold
  else config.fixedMagnitudeThreshold

/-- `RttAnalyzer.updateAdaptiveThresholds`. -/
def updateAdaptiveThresholds (s : AnalyzerState) : AnalyzerState :=
  if s.medianHistory.length < config.minSamplesForJitter then s
  else if (s.medianHistory.length : ℤ) - (s.lastThresholdUpdateSize : ℤ) ≥
            (THRESHOLD_UPDATE_INTERVAL : ℤ) ∨
          s.cachedMagnitudeThreshold = 0 then
    { s with
      cachedMagnitudeThreshold :=
        getPercentile s.medianHistory config.magnitudePercentile
      cachedJitterThreshold :=
        getPercentile s.jitterHistory config.jitterPercentile
      lastThresholdUpdateSize := s.medianHistory.length }
  else s

/-- `RttAnalyzer.shouldConfirmActivity` (reads `Date.now()` as `now`). -/
def shouldConfirmActivity (s : AnalyzerState) (now : ℚ) : Bool :=
  match s.pendingActivity with
  | none => false
  | some _ =>
      decide (s.activityWindowCount ≥ config.stateConfirmationWindows) &&
      decide ((now - s.activityPendingStartTime) / 1000 ≥
                config.stateConfirmationSeconds)

/-- `RttAnalyzer.shouldConfirmNetwork`. -/
def shouldConfirmNetwork (s : AnalyzerState) (now : ℚ) : Bool :=
  match s.pendingNetwork with
  | none => false
  | some _ =>
      decide (s.networkWindowCount ≥ config.stateConfirmationWindows) &&
      decide ((now - s.networkPendingStartTime) / 1000 ≥
                config.stateConfirmationSeconds)

/-- `RttAnalyzer.getActivityProgress`. -/
def getActivityProgress (s : AnalyzerState) (now : ℚ) : ℚ :=
  match s.pendingActivity with
  | none => 0
  | some _ =>
      let windowProgress :=
        min ((s.activityWindowCount : ℚ) / (config.stateConfirmationWindows : ℚ) * 100) 100
      let elapsedSeconds := (now - s.activityPendingStartTime) / 1000
      let timeProgress :=
        min (elapsedSeconds / config.stateConfirmationSeconds * 100) 100
      min windowProgress timeProgress

/-- `RttAnalyzer.getNetworkProgress`. -/
def getNetworkProgress (s : AnalyzerState) (now : ℚ) : ℚ :=
  match s.pendingNetwork with
  | none => 0
  | some _ =>
      let windowProgress :=
        min ((s.networkWindowCount : ℚ) / (config.stateConfirmationWindows : ℚ) * 100) 100
      let elapsedSeconds := (now - s.networkPendingStartTime) / 1000
      let timeProgress :=
        min (elapsedSeconds / config.stateConfirmationSeconds * 100) 100
      min windowProgress timeProgress

/-- `RttAnalyzer.updateActivityConfirmation`. -/
def updateActivityConfirmation (s : AnalyzerState) (rawActivity : ActivityState)
    (now : ℚ) : AnalyzerState :=
  if rawActivity = s.confirmedActivity then
    { s with pendingActivity := none, activityWindowCount := 0 }
  else if s.pendingActivity = some rawActivity then
    let s1 := { s with activityWindowCount := s.activityWindowCount + 1 }
    if shouldConfirmActivity s1 now then
      { s1 with confirmedActivity := rawActivity
                pendingActivity := none
                activityWindowCount := 0 }
    else s1
  else
    { s with pendingActivity := some rawActivity
             activityPendingStartTime := now
             activityWindowCount := 1 }

/-- `RttAnalyzer.updateNetworkConfirmation`. -/
def updateNetworkConfirmation (s : AnalyzerState) (rawNetwork : NetworkType)
    (now : ℚ) : AnalyzerState :=
  if rawNetwork = s.confirmedNetwork then
    { s with pendingNetwork := none, networkWindowCount := 0 }
  else if s.pendingNetwork = some rawNetwork then
    let s1 := { s with networkWindowCount := s.networkWindowCount + 1 }
    if shouldConfirmNetwork s1 now then
      { s1 with confirmedNetwork := rawNetwork
                pendingNetwork := none
                networkWindowCount := 0 }
    else s1
  else
    { s with pendingNetwork := some rawNetwork
             networkPendingStartTime := now
             networkWindowCount := 1 }

/-- The result record returned by `RttAnalyzer.determineState`. -/
structure StateAnalysisResult where
  activityState : ActivityState
  networkType : NetworkType
  rawActivityState : ActivityState
  rawNetworkType : NetworkType
  windowMedian : ℚ
  windowJitter : ℚ
  magnitudeThreshold : ℚ
  jitterThreshold : ℚ
  activityPending : Bool
  activityProgress : ℚ
  networkPending : Bool
  networkProgress : ℚ
  confidenceLevel : ConfidenceLevel
  observedTransitions : Nat
deriving DecidableEq, Repr

/-- History capping in `determineState` (`length > globalHistoryLimit → shift`). -/
def capHistory (l : List ℚ) : List ℚ :=
  if l.length > config.globalHistoryLimit then l.tail else l

/-- `determineState` lines 432-445: outlier-filtered median push, unconditional
jitter push, then capping of both histories. -/
def pushHistories (s : AnalyzerState) (stats : WindowStats) : AnalyzerState :=
  let s1 :=
    if isExtremeOutlier stats.median s.medianHistory then s
    else { s with medianHistory := s.medianHistory ++ [stats.median] }
  let s2 := { s1 with jitterHistory := s1.jitterHistory ++ [stats.jitter] }
  { s2 with medianHistory := capHistory s2.medianHistory
            jitterHistory := capHistory s2.jitterHistory }

/-- The `isTimeout` branch of `determineState` (lines 373-398). -/
def timeoutStep (s : AnalyzerState) : StateAnalysisResult × AnalyzerState :=
  let s1 := { s with confirmedActivity := .Offline
                     confirmedNetwork := .Unknown
                     pendingActivity := none
                     pendingNetwork := none
                     activityWindowCount := 0
                     networkWindowCount := 0 }
  ({ activityState := .Offline
     networkType := .Unknown
     rawActivityState := .Offline
     rawNetworkType := .Unknown
     windowMedian := 0
     windowJitter := 0
     magnitudeThreshold := getEffectiveMagnitudeThreshold s1
     jitterThreshold := s1.cachedJitterThreshold
     activityPending := false
     activityProgress := 0
     networkPending := false
     networkProgress := 0
     confidenceLevel := getConfidenceLevel s1
     observedTransitions := s1.observedTransitions }, s1)

/-- The early return of `determineState` when the window is too small
(lines 410-427). -/
def calibratingResult : StateAnalysisResult where
  activityState := .Calibrating
  networkType := .Unknown
  rawActivityState := .Calibrating
  rawNetworkType := .Unknown
  windowMedian := 0
  windowJitter := 0
  magnitudeThreshold := config.fixedMagnitudeThreshold
  jitterThreshold := 0
  activityPending := false
  activityProgress := 0
  networkPending := false
  networkProgress := 0
  confidenceLevel := .Low
  observedTransitions := 0

/-- `determineState` lines 429-448: transition detection, history pushes and
the adaptive-threshold update, in source order. -/
def classifyPrep (s : AnalyzerState) (stats : WindowStats) : AnalyzerState :=
  updateAdaptiveThresholds (pushHistories (detectTransition s stats.median) stats)

/-- `determineState` lines 453-459: raw activity from the effective magnitude
threshold. -/
def rawActivityOf (s4 : AnalyzerState) (stats : WindowStats) : ActivityState :=
  if stats.median ≥ getEffectiveMagnitudeThreshold s4 then .Standby else .Online

/-- `determineState` lines 455-460: raw network from the cached jitter
threshold (`false`, i.e. Wi-Fi, whenever the cache is not positive). -/
def rawNetworkOf (s4 : AnalyzerState) (stats : WindowStats) : NetworkType :=
  if 0 < s4.cachedJitterThreshold ∧ stats.jitter ≥ s4.cachedJitterThreshold
  then .LTE else .WiFi

/-- `determineState` lines 462-472: decoupled confirmation updates followed by
the first-valid-classification fast path for both axes. -/
def confirmStep (s4 : AnalyzerState) (stats : WindowStats) (now : ℚ) :
    AnalyzerState :=
  let s5 := updateActivityConfirmation s4 (rawActivityOf s4 stats) now
  let s6 := updateNetworkConfirmation s5 (rawNetworkOf s4 stats) now
  let s7 :=
    if s6.confirmedActivity = .Calibrating
    then { s6 with confirmedActivity := rawActivityOf s4 stats } else s6
  if s7.confirmedNetwork = .Unknown ∧ 0 < s7.cachedJitterThreshold
  then { s7 with confirmedNetwork := rawNetworkOf s4 stats } else s7

/-- The main body of `determineState` once window statistics are available
(lines 429-489). -/
def classifyStep (s : AnalyzerState) (stats : WindowStats) (now : ℚ) :
    StateAnalysisResult × AnalyzerState :=
  let s4 := classifyPrep s stats
  let s8 := confirmStep s4 stats now
  ({ activityState := s8.confirmedActivity
     networkType := s8.confirmedNetwork
     rawActivityState := rawActivityOf s4 stats
     rawNetworkType := rawNetworkOf s4 stats
     windowMedian := stats.median
     windowJitter := stats.jitter
     magnitudeThreshold := getEffectiveMagnitudeThreshold s4
     jitterThreshold := s8.cachedJitterThreshold
     activityPending := s8.pendingActivity.isSome
     activityProgress := getActivityProgress s8 now
     networkPending := s8.pendingNetwork.isSome
     networkProgress := getNetworkProgress s8 now
     confidenceLevel := getConfidenceLevel s8
     observedTransitions := s8.observedTransitions }, s8)

/-- `RttAnalyzer.determineState`.  `currentState` is the caller-supplied
current device state string, compared against `'Offline'`. -/
def determineState (s : AnalyzerState) (currentState : ActivityState)
    (isTimeout : Bool) (now : ℚ) : StateAnalysisResult × AnalyzerState :=
  if isTimeout then timeoutStep s
  else
    let s1 :=
      if currentState = .Offline ∧ s.confirmedActivity = .Offline
      then { s with confirmedActivity := .Calibrating
                    confirmedNetwork := .Unknown }
      else s
    match calculateWindowStats s1 with
    | none => (calibratingResult, s1)
    | some stats => classifyStep s1 stats now

/-- Per-device metrics kept by the tracker (`deviceMetrics` map entries). -/
structure DeviceMetrics where
  rttHistory : List ℚ
  activityState : ActivityState
  networkType : NetworkType
  lastRtt : ℚ
  lastUpdate : ℚ
  consecutiveTimeouts : Nat
  lastAnalysis : Option StateAnalysisResult
deriving DecidableEq, Repr

/-- `WhatsAppTracker.handleProbeTimeout` for one device: `om` is the current
`deviceMetrics` entry (or `none`). -/
def handleProbeTimeout (om : Option DeviceMetrics) (timeout now : ℚ) :
    DeviceMetrics :=
  match om with
  | none =>
      { rttHistory := []
        activityState := .Calibrating
        networkType := .Unknown
        lastRtt := timeout
        lastUpdate := now
        consecutiveTimeouts := 1
        lastAnalysis := none }
  | some metrics =>
      let m := { metrics with consecutiveTimeouts := metrics.consecutiveTimeouts + 1
                              lastRtt := timeout
                              lastUpdate := now }
      if m.consecutiveTimeouts ≥ 3 then
        { m with activityState := .Offline, networkType := .Unknown }
      else m

/-- `WhatsAppTracker.addMeasurementForDevice` for one device, threading the
shared analyzer state; includes the inlined `determineDeviceState` call. -/
def addMeasurementForDevice (om : Option DeviceMetrics) (a : AnalyzerState)
    (rtt now : ℚ) : DeviceMetrics × AnalyzerState :=
  let m0 : DeviceMetrics :=
    match om with
    | none =>
        { rttHistory := []
          activityState := .Calibrating
          networkType := .Unknown
          lastRtt := rtt
          lastUpdate := now
          consecutiveTimeouts := 0
          lastAnalysis := none }
    | some metrics => metrics
  let m1 := { m0 with consecutiveTimeouts := 0 }
  if rtt ≤ config.offlineThreshold then
    let hist := m1.rttHistory ++ [rtt]
    let hist := if hist.length > config.deviceHistoryLimit then hist.tail else hist
    let a1 := (addMeasurement a rtt).2
    let m2 := { m1 with rttHistory := hist, lastRtt := rtt, lastUpdate := now }
    let r := determineState a1 m2.activityState false now
    ({ m2 with activityState := r.1.activityState
               networkType := r.1.networkType
               lastAnalysis := some r.1 }, r.2)
  else
    ({ m1 with activityState := .Standby
               networkType := .Unknown
               lastRtt := rtt
               lastUpdate := now }, a)


/-! ## Helper lemmas -/

/-- Fields of the analyzer state untouched by `detectTransition`. -/
lemma detectTransition_frame (s : AnalyzerState) (m : ℚ) :
    (detectTransition s m).slidingWindow = s.slidingWindow ∧
    (detectTransition s m).medianHistory = s.medianHistory ∧
    (detectTransition s m).jitterHistory = s.jitterHistory ∧
    (detectTransition s m).cachedMagnitudeThreshold = s.cachedMagnitudeThreshold ∧
    (detectTransition s m).cachedJitterThreshold = s.cachedJitterThreshold ∧
    (detectTransition s m).lastThresholdUpdateSize = s.lastThresholdUpdateSize ∧
    (detectTransition s m).discardedSampleCount = s.discardedSampleCount ∧
    (detectTransition s m).confirmedActivity = s.confirmedActivity ∧
    (detectTransition s m).pendingActivity = s.pendingActivity ∧
    (detectTransition s m).activityPendingStartTime = s.activityPendingStartTime ∧
    (detectTransition s m).activityWindowCount = s.activityWindowCount ∧
    (detectTransition s m).confirmedNetwork = s.confirmedNetwork ∧
    (detectTransition s m).pendingNetwork = s.pendingNetwork ∧
    (detectTransition s m).networkPendingStartTime = s.networkPendingStartTime ∧
    (detectTransition s m).networkWindowCount = s.networkWindowCount := by
  rw [detectTransition]
  dsimp only
  split_ifs <;> simp

/-- Effect of `pushHistories` on each field. -/
lemma pushHistories_spec (s : AnalyzerState) (stats : WindowStats) :
    (pushHistories s stats).medianHistory =
      capHistory (if isExtremeOutlier stats.median s.medianHistory
        then s.medianHistory else s.medianHistory ++ [stats.median]) ∧
    (pushHistories s stats).jitterHistory =
      capHistory (s.jitterHistory ++ [stats.jitter]) ∧
    (pushHistories s stats).slidingWindow = s.slidingWindow ∧
    (pushHistories s stats).cachedMagnitudeThreshold = s.cachedMagnitudeThreshold ∧
    (pushHistories s stats).cachedJitterThreshold = s.cachedJitterThreshold ∧
    (pushHistories s stats).lastThresholdUpdateSize = s.lastThresholdUpdateSize ∧
    (pushHistories s stats).discardedSampleCount = s.discardedSampleCount ∧
    (pushHistories s stats).confirmedActivity = s.confirmedActivity ∧
    (pushHistories s stats).pendingActivity = s.pendingActivity ∧
    (pushHistories s stats).activityPendingStartTime = s.activityPendingStartTime ∧
    (pushHistories s stats).activityWindowCount = s.activityWindowCount ∧
    (pushHistories s stats).confirmedNetwork = s.confirmedNetwork ∧
    (pushHistories s stats).pendingNetwork = s.pendingNetwork ∧
    (pushHistories s stats).networkPendingStartTime = s.networkPendingStartTime ∧
    (pushHistories s stats).networkWindowCount = s.networkWindowCount ∧
    (pushHistories s stats).observedTransitions = s.observedTransitions ∧
    (pushHistories s stats).lastStableMedian = s.lastStableMedian ∧
    (pushHistories s stats).transitionInProgress = s.transitionInProgress := by
  rw [pushHistories]
  dsimp only
  split_ifs <;> simp

/-- Fields untouched by `updateAdaptiveThresholds`. -/
lemma updateAdaptiveThresholds_frame (s : AnalyzerState) :
    (updateAdaptiveThresholds s).slidingWindow = s.slidingWindow ∧
    (updateAdaptiveThresholds s).medianHistory = s.medianHistory ∧
    (updateAdaptiveThresholds s).jitterHistory = s.jitterHistory ∧
    (updateAdaptiveThresholds s).discardedSampleCount = s.discardedSampleCount ∧
    (updateAdaptiveThresholds s).confirmedActivity = s.confirmedActivity ∧
    (updateAdaptiveThresholds s).pendingActivity = s.pendingActivity ∧
    (updateAdaptiveThresholds s).activityPendingStartTime = s.activityPendingStartTime ∧
    (updateAdaptiveThresholds s).activityWindowCount = s.activityWindowCount ∧
    (updateAdaptiveThresholds s).confirmedNetwork = s.confirmedNetwork ∧
    (updateAdaptiveThresholds s).pendingNetwork = s.pendingNetwork ∧
    (updateAdaptiveThresholds s).networkPendingStartTime = s.networkPendingStartTime ∧
    (updateAdaptiveThresholds s).networkWindowCount = s.networkWindowCount ∧
    (updateAdaptiveThresholds s).observedTransitions = s.observedTransitions ∧
    (updateAdaptiveThresholds s).lastStableMedian = s.lastStableMedian ∧
    (updateAdaptiveThresholds s).transitionInProgress = s.transitionInProgress := by
  rw [updateAdaptiveThresholds]
  split_ifs <;> simp

/-- `updateActivityConfirmation` touches only the activity-confirmation
fields, and can change the confirmed activity only to the raw input. -/
lemma updateActivityConfirmation_frame (s : AnalyzerState)
    (raw : ActivityState) (now : ℚ) :
    (updateActivityConfirmation s raw now).slidingWindow = s.slidingWindow ∧
    (updateActivityConfirmation s raw now).medianHistory = s.medianHistory ∧
    (updateActivityConfirmation s raw now).jitterHistory = s.jitterHistory ∧
    (updateActivityConfirmation s raw now).cachedMagnitudeThreshold =
      s.cachedMagnitudeThreshold ∧
    (updateActivityConfirmation s raw now).cachedJitterThreshold =
      s.cachedJitterThreshold ∧
    (updateActivityConfirmation s raw now).lastThresholdUpdateSize =
      s.lastThresholdUpdateSize ∧
    (updateActivityConfirmation s raw now).discardedSampleCount =
      s.discardedSampleCount ∧
    (updateActivityConfirmation s raw now).confirmedNetwork = s.confirmedNetwork ∧
    (updateActivityConfirmation s raw now).pendingNetwork = s.pendingNetwork ∧
    (updateActivityConfirmation s raw now).networkPendingStartTime =
      s.networkPendingStartTime ∧
    (updateActivityConfirmation s raw now).networkWindowCount =
      s.networkWindowCount ∧
    (updateActivityConfirmation s raw now).observedTransitions =
      s.observedTransitions ∧
    (updateActivityConfirmation s raw now).lastStableMedian = s.lastStableMedian ∧
    (updateActivityConfirmation s raw now).transitionInProgress =
      s.transitionInProgress ∧
    ((updateActivityConfirmation s raw now).confirmedActivity =
        s.confirmedActivity ∨
      (updateActivityConfirmation s raw now).confirmedActivity = raw) := by
  rw [updateActivityConfirmation]
  dsimp only
  split_ifs <;> simp

/-- `updateNetworkConfirmation` touches only the network-confirmation fields,
can change the confirmed network only to the raw input, and can set the
pending network only to `none` or the raw input. -/
lemma updateNetworkConfirmation_frame (s : AnalyzerState)
    (raw : NetworkType) (now : ℚ) :
    (updateNetworkConfirmation s raw now).slidingWindow = s.slidingWindow ∧
    (updateNetworkConfirmation s raw now).medianHistory = s.medianHistory ∧
    (updateNetworkConfirmation s raw now).jitterHistory = s.jitterHistory ∧
    (updateNetworkConfirmation s raw now).cachedMagnitudeThreshold =
      s.cachedMagnitudeThreshold ∧
    (updateNetworkConfirmation s raw now).cachedJitterThreshold =
      s.cachedJitterThreshold ∧
    (updateNetworkConfirmation s raw now).lastThresholdUpdateSize =
      s.lastThresholdUpdateSize ∧
    (updateNetworkConfirmation s raw now).discardedSampleCount =
      s.discardedSampleCount ∧
    (updateNetworkConfirmation s raw now).confirmedActivity =
      s.confirmedActivity ∧
    (updateNetworkConfirmation s raw now).pendingActivity = s.pendingActivity ∧
    (updateNetworkConfirmation s raw now).activityPendingStartTime =
      s.activityPendingStartTime ∧
    (updateNetworkConfirmation s raw now).activityWindowCount =
      s.activityWindowCount ∧
    (updateNetworkConfirmation s raw now).observedTransitions =
      s.observedTransitions ∧
    (updateNetworkConfirmation s raw now).lastStableMedian = s.lastStableMedian ∧
    (updateNetworkConfirmation s raw now).transitionInProgress =
      s.transitionInProgress ∧
    ((updateNetworkConfirmation s raw now).confirmedNetwork =
        s.confirmedNetwork ∨
      (updateNetworkConfirmation s raw now).confirmedNetwork = raw) ∧
    ((updateNetworkConfirmation s raw now).pendingNetwork = s.pendingNetwork ∨
      (updateNetworkConfirmation s raw now).pendingNetwork = none ∨
      (updateNetworkConfirmation s raw now).pendingNetwork = some raw) := by
  rw [updateNetworkConfirmation]
  dsimp only
  split_ifs <;> simp


/-- `sortRat` is the unique `(· ≤ ·)`-sorted permutation of its input. -/
lemma sortRat_eq_of_perm_sorted {l s : List ℚ} (hp : l.Perm s)
    (hs : s.Sorted (· ≤ ·)) : sortRat l = s :=
  List.eq_of_perm_of_sorted ((List.perm_insertionSort _ l).trans hp)
    (List.sorted_insertionSort _ l) hs

/-! ## C4 -/

/-- C4: for every non-empty list, `calculateMedian` returns the middle element
of the sorted list (odd length) or the average of the two middle elements
(even length), with `[100,200,300,400] ↦ 250` and `[100,200,300] ↦ 200`;
`getPercentile` is linear interpolation at fractional index `p/100 × (n-1)`
of the sorted list; and the jitter (`calculateIQR`) of any window of at least
4 samples is `getPercentile · 75 - getPercentile · 25`. -/
theorem median_percentile_reference :
    (∀ (l s : List ℚ), l ≠ [] → l.Perm s → s.Sorted (· ≤ ·) →
        calculateMedian l =
          (if l.length % 2 = 1 then s.getD (l.length / 2) 0
           else (s.getD (l.length / 2 - 1) 0 + s.getD (l.length / 2) 0) / 2)) ∧
    calculateMedian [100, 200, 300, 400] = 250 ∧
    calculateMedian [100, 200, 300] = 200 ∧
    (∀ (l s : List ℚ) (p : ℚ), l ≠ [] → 0 ≤ p → p ≤ 100 → l.Perm s →
        s.Sorted (· ≤ ·) →
        getPercentile l p =
          s.getD (⌊p / 100 * ((l.length : ℚ) - 1)⌋.toNat) 0 +
            (p / 100 * ((l.length : ℚ) - 1) -
                (⌊p / 100 * ((l.length : ℚ) - 1)⌋ : ℚ)) *
              (s.getD (⌈p / 100 * ((l.length : ℚ) - 1)⌉.toNat) 0 -
                s.getD (⌊p / 100 * ((l.length : ℚ) - 1)⌋.toNat) 0)) ∧
    (∀ l : List ℚ, 4 ≤ l.length →
        calculateIQR l = getPercentile l 75 - getPercentile l 25) := by
  refine ⟨?_, ?_, ?_, ?_, ?_⟩
  · intro l s hne hp hs
    have hsl : sortRat l = s := sortRat_eq_of_perm_sorted hp hs
    have hlen : s.length = l.length := hp.length_eq.symm
    have hne0 : ¬ l.length = 0 := by simpa [List.length_eq_zero] using hne
    simp only [calculateMedian, hsl, hlen, if_neg hne0]
    split_ifs with h1 h2 <;> try rfl
    all_goals omega
  · norm_num [calculateMedian, sortRat, List.insertionSort, List.orderedInsert]
  · norm_num [calculateMedian, sortRat, List.insertionSort, List.orderedInsert]
  · intro l s p hne hp0 hp100 hperm hsorted
    have hsl : sortRat l = s := sortRat_eq_of_perm_sorted hperm hsorted
    have hlen : s.length = l.length := hperm.length_eq.symm
    have hne0 : ¬ l.length = 0 := by simpa [List.length_eq_zero] using hne
    simp only [getPercentile, hsl, hlen, if_neg hne0]
    split_ifs with h
    · have hceil : ((⌈p / 100 * ((l.length : ℚ) - 1)⌉ : ℤ) : ℚ) =
          ((⌊p / 100 * ((l.length : ℚ) - 1)⌋ : ℤ) : ℚ) := by
        exact_mod_cast congrArg (fun z : ℤ => (z : ℚ)) h.symm
      have hfl : ((⌊p / 100 * ((l.length : ℚ) - 1)⌋ : ℤ) : ℚ) =
          p / 100 * ((l.length : ℚ) - 1) := by
        have h1 := Int.floor_le (p / 100 * ((l.length : ℚ) - 1))
        have h2 := Int.le_ceil (p / 100 * ((l.length : ℚ) - 1))
        rw [hceil] at h2
        exact le_antisymm h1 h2
      rw [hfl]
      ring
    · rfl
  · intro l h4
    rw [calculateIQR, if_neg (by omega)]

/-- C4 witness: the median characterization applied to the concrete sorted
list `[100,200,300]` (its own sorted permutation). -/
theorem median_percentile_reference_witness :
    ([100, 200, 300] : List ℚ) ≠ [] ∧
    ([100, 200, 300] : List ℚ).Sorted (· ≤ ·) ∧
    calculateMedian [100, 200, 300] = ([100, 200, 300] : List ℚ).getD 1 0 := by
  have hs : ([100, 200, 300] : List ℚ).Sorted (· ≤ ·) := by
    norm_num [List.sorted_cons]
  refine ⟨by simp, hs, ?_⟩
  have h := median_percentile_reference.1 [100, 200, 300] [100, 200, 300]
    (by simp) (List.Perm.refl _) hs
  simpa using h

/-! ## C6 -/

/-- C6: `getConfidenceLevel` depends only on the transition counter with
boundaries `<2 → Low`, `2..3 → Medium`, `≥4 → High`, and the effective
magnitude threshold is the fixed 800 ms when confidence is Low or the cache is
0 (uninitialized), and the cached adaptive threshold when confidence is
Medium/High and the cache is positive. -/
theorem confidence_and_effective_threshold (s : AnalyzerState) :
    (s.observedTransitions < 2 → getConfidenceLevel s = .Low) ∧
    (2 ≤ s.observedTransitions → s.observedTransitions < 4 →
        getConfidenceLevel s = .Medium) ∧
    (4 ≤ s.observedTransitions → getConfidenceLevel s = .High) ∧
    (∀ t : AnalyzerState, s.observedTransitions = t.observedTransitions →
        getConfidenceLevel s = getConfidenceLevel t) ∧
    (getConfidenceLevel s = .Low ∨ s.cachedMagnitudeThreshold = 0 →
        getEffectiveMagnitudeThreshold s = 800) ∧
    (getConfidenceLevel s ≠ .Low → 0 < s.cachedMagnitudeThreshold →
        getEffectiveMagnitudeThreshold s = s.cachedMagnitudeThreshold) := by
  refine ⟨?_, ?_, ?_, ?_, ?_, ?_⟩
  · intro h
    rw [getConfidenceLevel, if_neg (by simp [config.highConfidenceTransitions]; omega),
      if_neg (by simp [config.mediumConfidenceTransitions]; omega)]
  · intro h1 h2
    rw [getConfidenceLevel, if_neg (by simp [config.highConfidenceTransitions]; omega),
      if_pos (by simp [config.mediumConfidenceTransitions]; omega)]
  · intro h
    rw [getConfidenceLevel, if_pos (by simp [config.highConfidenceTransitions]; omega)]
  · intro t ht
    rw [getConfidenceLevel, getConfidenceLevel, ht]
  · intro h
    rcases h with h | h
    · rw [getEffectiveMagnitudeThreshold, if_neg]
      · rfl
      · rintro ⟨hml, -⟩
        rcases hml with hm | hm <;> rw [h] at hm <;> exact ConfidenceLevel.noConfusion hm
    · rw [getEffectiveMagnitudeThreshold, if_neg]
      · rfl
      · rintro ⟨-, hpos⟩
        rw [h] at hpos
        exact lt_irrefl 0 hpos
  · intro hl hpos
    rw [getEffectiveMagnitudeThreshold, if_pos]
    refine ⟨?_, hpos⟩
    cases hc : getConfidenceLevel s with
    | Low => exact absurd hc hl
    | Medium => exact Or.inl rfl
    | High => exact Or.inr rfl

/-- A state with 3 observed transitions and a positive adaptive cache. -/
def mediumConfidenceState : AnalyzerState :=
  { initAnalyzer with observedTransitions := 3, cachedMagnitudeThreshold := 450 }

/-- C6 witness: a state with 3 observed transitions and a positive cache is
Medium confidence and uses the cached adaptive threshold. -/
theorem confidence_and_effective_threshold_witness :
    getConfidenceLevel mediumConfidenceState = .Medium ∧
    getEffectiveMagnitudeThreshold mediumConfidenceState = 450 := by
  have h := confidence_and_effective_threshold mediumConfidenceState
  have hm := h.2.1 (by norm_num [mediumConfidenceState, initAnalyzer])
    (by norm_num [mediumConfidenceState, initAnalyzer])
  refine ⟨hm, ?_⟩
  have := h.2.2.2.2.2 (by rw [hm]; exact fun hc => ConfidenceLevel.noConfusion hc)
    (by norm_num [mediumConfidenceState, initAnalyzer])
  simpa [mediumConfidenceState] using this

/-! ## C7 -/

/-- C7: `addMeasurement` rejects RTT values outside `(0, 60000]` without
touching any state, discards the first 5 valid samples counting only the
discard counter, then appends each valid sample to the sliding window,
evicting the oldest entry when the window would exceed 20, so the window
length never exceeds 20. -/
theorem addMeasurement_validation_and_window (s : AnalyzerState) (rtt : ℚ) :
    (rtt ≤ 0 ∨ 60000 < rtt → addMeasurement s rtt = (false, s)) ∧
    (0 < rtt → rtt ≤ 60000 → s.discardedSampleCount < 5 →
        addMeasurement s rtt =
          (false, { s with discardedSampleCount := s.discardedSampleCount + 1 })) ∧
    (0 < rtt → rtt ≤ 60000 → 5 ≤ s.discardedSampleCount →
        (addMeasurement s rtt).1 = true ∧
        (addMeasurement s rtt).2.discardedSampleCount = s.discardedSampleCount ∧
        (s.slidingWindow.length < 20 →
            (addMeasurement s rtt).2.slidingWindow = s.slidingWindow ++ [rtt]) ∧
        (20 ≤ s.slidingWindow.length →
            (addMeasurement s rtt).2.slidingWindow = (s.slidingWindow ++ [rtt]).tail)) ∧
    (s.slidingWindow.length ≤ 20 →
        (addMeasurement s rtt).2.slidingWindow.length ≤ 20) := by
  refine ⟨?_, ?_, ?_, ?_⟩
  · intro h
    rw [addMeasurement, if_pos]
    rcases h with h | h
    · exact Or.inl h
    · exact Or.inr h
  · intro h0 h6 hd
    rw [addMeasurement, if_neg (by push_neg; exact ⟨h0, h6⟩),
      if_pos (by simpa [config.discardInitialSamples] using hd)]
  · intro h0 h6 hd
    rw [addMeasurement, if_neg (by push_neg; exact ⟨h0, h6⟩),
      if_neg (by simp [config.discardInitialSamples]; omega)]
    refine ⟨rfl, rfl, ?_, ?_⟩
    · intro hlt
      simp only [config.slidingWindowSize]
      rw [if_neg (by simp; omega)]
    · intro hge
      simp only [config.slidingWindowSize]
      rw [if_pos (by simp; omega)]
  · intro hle
    rw [addMeasurement]
    split_ifs with h1 h2
    · exact hle
    · exact hle
    · dsimp only
      split_ifs with h3
      · simp only [List.length_tail, List.length_append, List.length_singleton]
        omega
      · simp only [config.slidingWindowSize, List.length_append,
          List.length_singleton] at h3 ⊢
        omega

/-- C7 witness: a too-large RTT is rejected, and a valid RTT after burn-in is
accepted and appended. -/
theorem addMeasurement_validation_and_window_witness :
    addMeasurement initAnalyzer 70000 = (false, initAnalyzer) ∧
    (addMeasurement { initAnalyzer with discardedSampleCount := 5 } 120).2.slidingWindow
      = [120] := by
  constructor
  · exact (addMeasurement_validation_and_window initAnalyzer 70000).1
      (Or.inr (by norm_num))
  · have h := (addMeasurement_validation_and_window
      { initAnalyzer with discardedSampleCount := 5 } 120).2.2.1
      (by norm_num) (by norm_num) (by norm_num [initAnalyzer])
    have := h.2.2.1 (by simp [initAnalyzer])
    simpa [initAnalyzer] using this

/-- `shouldConfirmActivity` holds exactly when both the window floor and the
elapsed-seconds floor are met (given a pending candidate exists). -/
lemma shouldConfirmActivity_eq_true_iff {s : AnalyzerState} {a : ActivityState}
    (h : s.pendingActivity = some a) (now : ℚ) :
    shouldConfirmActivity s now = true ↔
      (config.stateConfirmationWindows ≤ s.activityWindowCount ∧
        config.stateConfirmationSeconds ≤ (now - s.activityPendingStartTime) / 1000) := by
  simp [shouldConfirmActivity, h, Bool.and_eq_true, decide_eq_true_eq, ge_iff_le]

/-! ## C1 -/

/-- C1: the activity confirmation machine: a raw observation equal to the
confirmed state clears pending; one matching the pending candidate increments
its window count and promotes exactly when the incremented count reaches 3 AND
at least 5 seconds have elapsed since the candidate's start time; one matching
neither starts a fresh candidate at count 1; and the confirmed state changes
only by such a promotion, so an isolated flip never changes it and a
persistent flip confirms only once both floors hold. -/
theorem activity_confirmation_state_machine (s : AnalyzerState)
    (raw : ActivityState) (now : ℚ) :
    (raw = s.confirmedActivity →
        (updateActivityConfirmation s raw now).pendingActivity = none ∧
        (updateActivityConfirmation s raw now).activityWindowCount = 0 ∧
        (updateActivityConfirmation s raw now).confirmedActivity =
          s.confirmedActivity) ∧
    (raw ≠ s.confirmedActivity → s.pendingActivity = some raw →
        3 ≤ s.activityWindowCount + 1 →
        5 ≤ (now - s.activityPendingStartTime) / 1000 →
        (updateActivityConfirmation s raw now).confirmedActivity = raw ∧
        (updateActivityConfirmation s raw now).pendingActivity = none) ∧
    (raw ≠ s.confirmedActivity → s.pendingActivity = some raw →
        ¬(3 ≤ s.activityWindowCount + 1 ∧
            5 ≤ (now - s.activityPendingStartTime) / 1000) →
        (updateActivityConfirmation s raw now).confirmedActivity =
          s.confirmedActivity ∧
        (updateActivityConfirmation s raw now).pendingActivity = some raw ∧
        (updateActivityConfirmation s raw now).activityWindowCount =
          s.activityWindowCount + 1) ∧
    (raw ≠ s.confirmedActivity → s.pendingActivity ≠ some raw →
        (updateActivityConfirmation s raw now).confirmedActivity =
          s.confirmedActivity ∧
        (updateActivityConfirmation s raw now).pendingActivity = some raw ∧
        (updateActivityConfirmation s raw now).activityWindowCount = 1 ∧
        (updateActivityConfirmation s raw now).activityPendingStartTime = now) ∧
    ((updateActivityConfirmation s raw now).confirmedActivity ≠
        s.confirmedActivity →
        s.pendingActivity = some raw ∧
        (updateActivityConfirmation s raw now).confirmedActivity = raw ∧
        3 ≤ s.activityWindowCount + 1 ∧
        5 ≤ (now - s.activityPendingStartTime) / 1000) := by
  refine ⟨?_, ?_, ?_, ?_, ?_⟩
  · intro h
    rw [updateActivityConfirmation, if_pos h]
    exact ⟨rfl, rfl, rfl⟩
  · intro hne hp h3 h5
    have hyes := (shouldConfirmActivity_eq_true_iff
      (s := { s with activityWindowCount := s.activityWindowCount + 1 })
      (a := raw) (by simpa using hp) now).mpr
      ⟨by simpa [config.stateConfirmationWindows] using h3,
        by simpa [config.stateConfirmationSeconds] using h5⟩
    rw [updateActivityConfirmation, if_neg hne, if_pos hp]
    dsimp only
    rw [if_pos hyes]
    exact ⟨rfl, rfl⟩
  · intro hne hp hno
    have hnotb : ¬ (shouldConfirmActivity
        { s with activityWindowCount := s.activityWindowCount + 1 } now = true) := by
      intro hb
      rcases (shouldConfirmActivity_eq_true_iff
        (s := { s with activityWindowCount := s.activityWindowCount + 1 })
        (a := raw) (by simpa using hp) now).mp hb with ⟨ha, hb2⟩
      exact hno ⟨by simpa [config.stateConfirmationWindows] using ha,
        by simpa [config.stateConfirmationSeconds] using hb2⟩
    rw [updateActivityConfirmation, if_neg hne, if_pos hp]
    dsimp only
    rw [if_neg hnotb]
    exact ⟨rfl, hp, rfl⟩
  · intro hne hnp
    rw [updateActivityConfirmation, if_neg hne, if_neg hnp]
    exact ⟨rfl, rfl, rfl, rfl⟩
  · rw [updateActivityConfirmation]
    dsimp only
    split_ifs with h1 h2 h3
    · intro hcc
      exact absurd rfl hcc
    · intro _
      have hc := (shouldConfirmActivity_eq_true_iff
        (s := { s with activityWindowCount := s.activityWindowCount + 1 })
        (a := raw) (by simpa using h2) now).mp h3
      exact ⟨h2, rfl, by simpa [config.stateConfirmationWindows] using hc.1,
        by simpa [config.stateConfirmationSeconds] using hc.2⟩
    · intro hcc
      exact absurd rfl hcc
    · intro hcc
      exact absurd rfl hcc

/-- A state confirmed Online with a Standby candidate one observation away
from the window floor and past the time floor. -/
def pendingPromotionState : AnalyzerState :=
  { initAnalyzer with
      confirmedActivity := .Online
      pendingActivity := some .Standby
      activityWindowCount := 2 }

/-- C1 witness: a third matching observation 6 seconds after the candidate
started promotes Standby to the confirmed state. -/
theorem activity_confirmation_state_machine_witness :
    (updateActivityConfirmation pendingPromotionState .Standby 6000).confirmedActivity
      = .Standby := by
  have h := (activity_confirmation_state_machine pendingPromotionState .Standby 6000).2.1
    (by simp [pendingPromotionState, initAnalyzer])
    (by simp [pendingPromotionState, initAnalyzer])
    (by norm_num [pendingPromotionState, initAnalyzer])
    (by norm_num [pendingPromotionState, initAnalyzer])
  exact h.1

/-! ## C9 -/

/-- Three median-history entries, no thresholds ever computed. -/
def smallHistoryState : AnalyzerState :=
  { initAnalyzer with medianHistory := [100, 100, 100], jitterHistory := [50] }

/-- C9 counterexample: with 3 history entries and a never-computed (zero)
magnitude cache the claim requires a recomputation (which would set the cache
to P75 = 100), but `updateAdaptiveThresholds` returns the state unchanged
because fewer than `minSamplesForJitter` history points exist. -/
theorem threshold_recompute_counterexample :
    smallHistoryState.cachedMagnitudeThreshold = 0 ∧
    updateAdaptiveThresholds smallHistoryState = smallHistoryState ∧
    getPercentile smallHistoryState.medianHistory 75 = 100 := by
  refine ⟨rfl, ?_, ?_⟩
  · rw [updateAdaptiveThresholds, if_pos]
    simp [smallHistoryState, initAnalyzer, config.minSamplesForJitter]
  · have hc : ⌈(3:ℚ)/2⌉ = 2 := by
      rw [Int.ceil_eq_iff]
      norm_num
    show getPercentile [100, 100, 100] 75 = 100
    norm_num [getPercentile, sortRat, List.insertionSort, List.orderedInsert, hc,
      (show (1:ℤ).toNat = 1 from rfl), (show (2:ℤ).toNat = 2 from rfl),
      List.getElem_cons_succ, List.getElem_cons_zero,
      List.getElem?_cons_succ, List.getElem?_cons_zero]

/-- C9 (amended): `updateAdaptiveThresholds` recomputes both caches as the
P75 of their histories exactly when the median history holds at least 5
entries AND (its length has grown by at least 5 since the last recomputation
OR the magnitude cache is 0); in every other call the state is unchanged. -/
theorem threshold_recompute_amended (s : AnalyzerState) :
    (s.medianHistory.length < 5 → updateAdaptiveThresholds s = s) ∧
    (5 ≤ s.medianHistory.length →
        (s.lastThresholdUpdateSize + 5 ≤ s.medianHistory.length ∨
          s.cachedMagnitudeThreshold = 0) →
        (updateAdaptiveThresholds s).cachedMagnitudeThreshold =
          getPercentile s.medianHistory 75 ∧
        (updateAdaptiveThresholds s).cachedJitterThreshold =
          getPercentile s.jitterHistory 75 ∧
        (updateAdaptiveThresholds s).lastThresholdUpdateSize =
          s.medianHistory.length) ∧
    (5 ≤ s.medianHistory.length →
        ¬(s.lastThresholdUpdateSize + 5 ≤ s.medianHistory.length ∨
            s.cachedMagnitudeThreshold = 0) →
        updateAdaptiveThresholds s = s) := by
  refine ⟨?_, ?_, ?_⟩
  · intro h
    rw [updateAdaptiveThresholds, if_pos (by simpa [config.minSamplesForJitter] using h)]
  · intro hlen hcond
    rw [updateAdaptiveThresholds,
      if_neg (by simp only [config.minSamplesForJitter]; omega)]
    rw [if_pos ?hc]
    case hc =>
      rcases hcond with h | h
      · left
        simp only [THRESHOLD_UPDATE_INTERVAL]
        omega
      · exact Or.inr h
    exact ⟨rfl, rfl, rfl⟩
  · intro hlen hcond
    rw [updateAdaptiveThresholds,
      if_neg (by simp only [config.minSamplesForJitter]; omega)]
    rw [if_neg ?hn]
    case hn =>
      intro hC
      rcases hC with h | h
      · refine hcond (Or.inl ?_)
        simp only [THRESHOLD_UPDATE_INTERVAL] at h
        omega
      · exact hcond (Or.inr h)

/-- Five median-history entries, nothing computed yet. -/
def fiveHistoryState : AnalyzerState :=
  { initAnalyzer with medianHistory := [100, 110, 120, 130, 140] }

/-- C9 witness: at 5 history entries with a zero cache the thresholds are
recomputed; the magnitude cache becomes the P75 of the history. -/
theorem threshold_recompute_amended_witness :
    (updateAdaptiveThresholds fiveHistoryState).cachedMagnitudeThreshold = 130 ∧
    (updateAdaptiveThresholds fiveHistoryState).lastThresholdUpdateSize = 5 := by
  have h := (threshold_recompute_amended fiveHistoryState).2.1
    (by simp [fiveHistoryState, initAnalyzer])
    (Or.inr (by simp [fiveHistoryState, initAnalyzer]))
  refine ⟨?_, by simpa [fiveHistoryState, initAnalyzer] using h.2.2⟩
  rw [h.1]
  show getPercentile [100, 110, 120, 130, 140] 75 = 130
  norm_num [getPercentile, sortRat, List.insertionSort, List.orderedInsert,
    (show (3:ℤ).toNat = 3 from rfl),
    List.getElem_cons_succ, List.getElem_cons_zero,
    List.getElem?_cons_succ, List.getElem?_cons_zero]

/-! ## C5 -/

/-- One `detectTransition` step increases the counter by at most one. -/
lemma detectTransition_observed (s : AnalyzerState) (m : ℚ) :
    s.observedTransitions ≤ (detectTransition s m).observedTransitions ∧
    (detectTransition s m).observedTransitions ≤ s.observedTransitions + 1 := by
  rw [detectTransition]
  dsimp only
  split_ifs <;> simp

/-- Medians that all stay at least the threshold away from the unchanged
baseline never increment the counter and never move the baseline. -/
lemma foldl_detectTransition_stays_high (ms : List ℚ) :
    ∀ s : AnalyzerState, s.lastStableMedian ≠ 0 →
      (∀ x ∈ ms, |x - s.lastStableMedian| / s.lastStableMedian * 100 ≥
          config.transitionThresholdPercent) →
      (ms.foldl detectTransition s).observedTransitions = s.observedTransitions ∧
      (ms.foldl detectTransition s).lastStableMedian = s.lastStableMedian := by
  induction ms with
  | nil => intro s _ _; exact ⟨rfl, rfl⟩
  | cons x xs ih =>
      intro s hb hall
      have hx := hall x (List.mem_cons_self x xs)
      have hobs : (detectTransition s x).observedTransitions =
          s.observedTransitions ∧
          (detectTransition s x).lastStableMedian = s.lastStableMedian := by
        rw [detectTransition, if_neg hb]
        dsimp only
        rw [if_pos hx]
        split_ifs <;> exact ⟨rfl, rfl⟩
      have h2 := ih (detectTransition s x) (by rw [hobs.2]; exact hb)
        (by intro y hy; rw [hobs.2]; exact hall y (List.mem_cons_of_mem _ hy))
      rw [List.foldl_cons]
      exact ⟨h2.1.trans hobs.1, h2.2.trans hobs.2⟩

/-- `confirmStep` never touches the window, the histories, the caches or the
transition counter. -/
lemma confirmStep_frame (s4 : AnalyzerState) (stats : WindowStats) (now : ℚ) :
    (confirmStep s4 stats now).slidingWindow = s4.slidingWindow ∧
    (confirmStep s4 stats now).medianHistory = s4.medianHistory ∧
    (confirmStep s4 stats now).jitterHistory = s4.jitterHistory ∧
    (confirmStep s4 stats now).cachedMagnitudeThreshold =
      s4.cachedMagnitudeThreshold ∧
    (confirmStep s4 stats now).cachedJitterThreshold = s4.cachedJitterThreshold ∧
    (confirmStep s4 stats now).observedTransitions = s4.observedTransitions := by
  obtain ⟨a1, a2, a3, a4, a5, -, -, -, -, -, -, a12, -, -, -⟩ :=
    updateActivityConfirmation_frame s4 (rawActivityOf s4 stats) now
  obtain ⟨n1, n2, n3, n4, n5, -, -, -, -, -, -, n12, -, -, -, -⟩ :=
    updateNetworkConfirmation_frame
      (updateActivityConfirmation s4 (rawActivityOf s4 stats) now)
      (rawNetworkOf s4 stats) now
  rw [confirmStep]
  split_ifs <;>
    refine ⟨?_, ?_, ?_, ?_, ?_, ?_⟩ <;>
    simp [a1, a2, a3, a4, a5, a12, n1, n2, n3, n4, n5, n12]

/-- `classifyStep` never decreases the transition counter. -/
lemma classifyStep_observed_mono (s : AnalyzerState) (stats : WindowStats)
    (now : ℚ) :
    s.observedTransitions ≤ (classifyStep s stats now).2.observedTransitions := by
  obtain ⟨-, -, -, -, -, -, -, -, -, -, -, -, -, -, -, p16, -, -⟩ :=
    pushHistories_spec (detectTransition s stats.median) stats
  obtain ⟨-, -, -, -, -, -, -, -, -, -, -, -, u13, -, -⟩ :=
    updateAdaptiveThresholds_frame
      (pushHistories (detectTransition s stats.median) stats)
  have hcf := (confirmStep_frame (classifyPrep s stats) stats now).2.2.2.2.2
  calc s.observedTransitions
      ≤ (detectTransition s stats.median).observedTransitions :=
        (detectTransition_observed s stats.median).1
    _ = (pushHistories (detectTransition s stats.median) stats).observedTransitions :=
        p16.symm
    _ = (classifyPrep s stats).observedTransitions := by
        rw [classifyPrep]; exact u13.symm
    _ = (classifyStep s stats now).2.observedTransitions := by
        show _ = (confirmStep (classifyPrep s stats) stats now).observedTransitions
        exact hcf.symm

/-- `determineState` never decreases the transition counter. -/
lemma determineState_observed_mono (s : AnalyzerState) (cur : ActivityState)
    (it : Bool) (now : ℚ) :
    s.observedTransitions ≤ (determineState s cur it now).2.observedTransitions := by
  have key : ∀ s1 : AnalyzerState, s1.observedTransitions = s.observedTransitions →
      s.observedTransitions ≤
        ((match calculateWindowStats s1 with
          | none => (calibratingResult, s1)
          | some stats => classifyStep s1 stats now) :
            StateAnalysisResult × AnalyzerState).2.observedTransitions := by
    intro s1 hs1
    cases h : calculateWindowStats s1 with
    | none => simp [hs1]
    | some stats =>
        calc s.observedTransitions = s1.observedTransitions := hs1.symm
          _ ≤ _ := classifyStep_observed_mono s1 stats now
  cases it with
  | true => simp [determineState, timeoutStep]
  | false =>
      rw [determineState]
      simp only [Bool.false_eq_true, if_false]
      split_ifs with hA
      · exact key _ rfl
      · exact key _ rfl

/-- A baseline-and-in-progress state whose next median is back within the
threshold. -/
def returningState : AnalyzerState :=
  { initAnalyzer with
      lastStableMedian := 200
      transitionInProgress := true }

/-- C5: the transition counter is monotone under `detectTransition`,
`addMeasurement` and `determineState`, is zeroed only by `reset`, is
incremented by at most one per step and exactly once per depart-then-return
excursion: a median at least 25% away from the nonzero baseline only marks a
transition in progress (counter and baseline unchanged), a subsequent median
back under 25% of the same baseline increments the counter once and
rebaselines, and medians that jump and stay at least 25% away never increment
the counter at all. -/
theorem transition_counter_spec (s : AnalyzerState) (m rtt now : ℚ)
    (cur : ActivityState) (it : Bool) (ms : List ℚ) :
    (s.observedTransitions ≤ (detectTransition s m).observedTransitions ∧
      (detectTransition s m).observedTransitions ≤ s.observedTransitions + 1) ∧
    (s.lastStableMedian ≠ 0 →
        |m - s.lastStableMedian| / s.lastStableMedian * 100 ≥
          config.transitionThresholdPercent →
        (detectTransition s m).observedTransitions = s.observedTransitions ∧
        (detectTransition s m).lastStableMedian = s.lastStableMedian ∧
        (detectTransition s m).transitionInProgress = true) ∧
    (s.lastStableMedian ≠ 0 → s.transitionInProgress = true →
        |m - s.lastStableMedian| / s.lastStableMedian * 100 <
          config.transitionThresholdPercent →
        (detectTransition s m).observedTransitions = s.observedTransitions + 1 ∧
        (detectTransition s m).lastStableMedian = m ∧
        (detectTransition s m).transitionInProgress = false) ∧
    (s.lastStableMedian ≠ 0 → s.transitionInProgress = false →
        |m - s.lastStableMedian| / s.lastStableMedian * 100 <
          config.transitionThresholdPercent →
        detectTransition s m = s) ∧
    (s.lastStableMedian ≠ 0 →
        (∀ x ∈ ms, |x - s.lastStableMedian| / s.lastStableMedian * 100 ≥
            config.transitionThresholdPercent) →
        (ms.foldl detectTransition s).observedTransitions =
          s.observedTransitions) ∧
    (addMeasurement s rtt).2.observedTransitions = s.observedTransitions ∧
    s.observedTransitions ≤ (determineState s cur it now).2.observedTransitions ∧
    (reset s).observedTransitions = 0 := by
  refine ⟨detectTransition_observed s m, ?_, ?_, ?_, ?_, ?_,
    determineState_observed_mono s cur it now, rfl⟩
  · intro hb hge
    rw [detectTransition, if_neg hb]
    dsimp only
    rw [if_pos hge]
    split_ifs with h
    · exact ⟨rfl, rfl, h⟩
    · exact ⟨rfl, rfl, rfl⟩
  · intro hb hip hlt
    rw [detectTransition, if_neg hb]
    dsimp only
    rw [if_neg (not_le.mpr hlt), if_pos hip]
    exact ⟨rfl, rfl, rfl⟩
  · intro hb hip hlt
    rw [detectTransition, if_neg hb]
    dsimp only
    rw [if_neg (not_le.mpr hlt), if_neg (by simp [hip])]
  · intro hb hall
    exact (foldl_detectTransition_stays_high ms s hb hall).1
  · rw [addMeasurement]
    split_ifs <;> rfl

/-- C5 witness: from baseline 200 with a transition in progress, the median
210 (5% change) finalizes the excursion: one increment, new baseline 210. -/
theorem transition_counter_spec_witness :
    (detectTransition returningState 210).observedTransitions = 1 ∧
    (detectTransition returningState 210).lastStableMedian = 210 ∧
    (detectTransition returningState 210).transitionInProgress = false := by
  have h := (transition_counter_spec returningState 210 0 0 .Online false []).2.2.1
    (by norm_num [returningState, initAnalyzer])
    (by simp [returningState, initAnalyzer])
    (by norm_num [returningState, initAnalyzer, config.transitionThresholdPercent])
  simpa [returningState, initAnalyzer] using h

/-! ## C2 -/


def offlineWindowState : AnalyzerState :=
  { initAnalyzer with
      confirmedActivity := .Offline
      slidingWindow := [100, 100, 100, 100, 100]
      discardedSampleCount := 5 }

def cexSA : AnalyzerState :=
  { offlineWindowState with confirmedActivity := .Calibrating
                            confirmedNetwork := .Unknown }
def cexSB : AnalyzerState := { cexSA with lastStableMedian := 100 }
def cexSC : AnalyzerState :=
  { cexSB with medianHistory := [100], jitterHistory := [0] }
def cexS5 : AnalyzerState :=
  { cexSC with pendingActivity := some .Online
               activityPendingStartTime := 0
               activityWindowCount := 1 }
def cexS6 : AnalyzerState :=
  { cexS5 with pendingNetwork := some .WiFi
               networkPendingStartTime := 0
               networkWindowCount := 1 }
def cexS7 : AnalyzerState := { cexS6 with confirmedActivity := .Online }

lemma cex_median : calculateMedian [100, 100, 100, 100, 100] = 100 := by
  norm_num [calculateMedian, sortRat, List.insertionSort, List.orderedInsert]

lemma cex_iqr : calculateIQR [100, 100, 100, 100, 100] = 0 := by
  norm_num [calculateIQR, getPercentile, sortRat, List.insertionSort,
    List.orderedInsert, (show (1:ℤ).toNat = 1 from rfl),
    (show (3:ℤ).toNat = 3 from rfl), List.getElem_cons_succ,
    List.getElem_cons_zero]

lemma cex_stats : calculateWindowStats cexSA = some ⟨100, 0⟩ := by
  rw [calculateWindowStats,
    if_neg (by simp [cexSA, offlineWindowState, initAnalyzer, config.minSamplesForJitter])]
  have h1 : cexSA.slidingWindow = [100, 100, 100, 100, 100] := rfl
  rw [h1, cex_median, cex_iqr]

lemma cex_detect : detectTransition cexSA 100 = cexSB := by
  rw [detectTransition, if_pos (show cexSA.lastStableMedian = 0 from rfl)]
  rfl

lemma cex_push : pushHistories cexSB ⟨100, 0⟩ = cexSC := by
  rw [pushHistories]
  dsimp only
  rw [if_neg (show ¬ (isExtremeOutlier 100 cexSB.medianHistory = true) from by
    simp [isExtremeOutlier, cexSB, cexSA, offlineWindowState, initAnalyzer])]
  simp [capHistory, config.globalHistoryLimit, cexSB, cexSA, cexSC,
    offlineWindowState, initAnalyzer]

lemma cex_thresh : updateAdaptiveThresholds cexSC = cexSC := by
  rw [updateAdaptiveThresholds,
    if_pos (by simp [cexSC, cexSB, cexSA, offlineWindowState, initAnalyzer,
      config.minSamplesForJitter])]

lemma cex_prep : classifyPrep cexSA ⟨100, 0⟩ = cexSC := by
  rw [classifyPrep]
  dsimp only
  rw [cex_detect, cex_push, cex_thresh]

lemma cex_rawA : rawActivityOf cexSC ⟨100, 0⟩ = .Online := by
  have hlow : getConfidenceLevel cexSC = .Low := by
    rw [getConfidenceLevel]
    rw [if_neg (by simp [cexSC, cexSB, cexSA, offlineWindowState, initAnalyzer,
      config.highConfidenceTransitions]),
      if_neg (by simp [cexSC, cexSB, cexSA, offlineWindowState, initAnalyzer,
      config.mediumConfidenceTransitions])]
  have heff : getEffectiveMagnitudeThreshold cexSC = 800 := by
    rw [getEffectiveMagnitudeThreshold, if_neg]
    · rfl
    · rintro ⟨hml, -⟩
      rcases hml with hm | hm <;> rw [hlow] at hm <;>
        exact ConfidenceLevel.noConfusion hm
  rw [rawActivityOf]
  rw [if_neg]
  dsimp only
  rw [heff]
  norm_num

lemma cex_rawN : rawNetworkOf cexSC ⟨100, 0⟩ = .WiFi := by
  rw [rawNetworkOf, if_neg]
  rintro ⟨h0, -⟩
  rw [show cexSC.cachedJitterThreshold = 0 from rfl] at h0
  exact lt_irrefl 0 h0

lemma cex_confirm : confirmStep cexSC ⟨100, 0⟩ 0 = cexS7 := by
  have h5 : updateActivityConfirmation cexSC .Online 0 = cexS5 := by
    rw [updateActivityConfirmation,
      if_neg (show ¬(ActivityState.Online = cexSC.confirmedActivity) from by
        simp [cexSC, cexSB, cexSA, offlineWindowState, initAnalyzer]),
      if_neg (show ¬(cexSC.pendingActivity = some .Online) from by
        simp [cexSC, cexSB, cexSA, offlineWindowState, initAnalyzer])]
    rfl
  have h6 : updateNetworkConfirmation cexS5 .WiFi 0 = cexS6 := by
    rw [updateNetworkConfirmation,
      if_neg (show ¬(NetworkType.WiFi = cexS5.confirmedNetwork) from by
        simp [cexS5, cexSC, cexSB, cexSA, offlineWindowState, initAnalyzer]),
      if_neg (show ¬(cexS5.pendingNetwork = some .WiFi) from by
        simp [cexS5, cexSC, cexSB, cexSA, offlineWindowState, initAnalyzer])]
    rfl
  rw [confirmStep, cex_rawA, cex_rawN, h5, h6]
  rw [if_pos (show cexS6.confirmedActivity = .Calibrating from rfl)]
  have hrec : ({ cexS6 with confirmedActivity := ActivityState.Online } : AnalyzerState) = cexS7 := rfl
  rw [hrec]
  rw [if_neg (show ¬(cexS7.confirmedNetwork = .Unknown ∧
      0 < cexS7.cachedJitterThreshold) from by
    rintro ⟨-, h0⟩
    rw [show cexS7.cachedJitterThreshold = 0 from rfl] at h0
    exact lt_irrefl 0 h0)]


/-- C2 counterexample: with the activity confirmed `Offline` and a five-sample
window of 100 ms RTTs, a non-timeout `determineState` call returns the
confirmed activity `Online` in that same call (via the
first-valid-classification fast path), not `Calibrating` as claimed. -/
theorem offline_reentry_counterexample :
    (determineState offlineWindowState .Offline false 0).1.activityState
        = .Online ∧
    (determineState offlineWindowState .Offline false 0).1.activityState
        ≠ .Calibrating := by
  have h : (determineState offlineWindowState .Offline false 0).1.activityState
      = .Online := by
    rw [determineState, if_neg (by simp)]
    rw [if_pos (⟨rfl, rfl⟩ : ActivityState.Offline = ActivityState.Offline ∧
        offlineWindowState.confirmedActivity = ActivityState.Offline)]
    rw [show ({ offlineWindowState with
        confirmedActivity := ActivityState.Calibrating,
        confirmedNetwork := NetworkType.Unknown } : AnalyzerState) = cexSA from rfl]
    dsimp only
    rw [cex_stats]
    show (confirmStep (classifyPrep cexSA ⟨100, 0⟩) ⟨100, 0⟩ 0).confirmedActivity
      = .Online
    rw [cex_prep, cex_confirm]
    rfl
  exact ⟨h, by rw [h]; exact fun hc => ActivityState.noConfusion hc⟩

/-- The raw activity classification is always `Standby` or `Online`. -/
lemma rawActivityOf_cases (s4 : AnalyzerState) (stats : WindowStats) :
    rawActivityOf s4 stats = .Standby ∨ rawActivityOf s4 stats = .Online := by
  rw [rawActivityOf]
  split_ifs <;> simp

/-- When the state entering `confirmStep` is still `Calibrating`, the
fast path (or a promotion) makes the confirmed activity the raw
classification of this very call. -/
lemma confirmStep_calibrating (s4 : AnalyzerState) (stats : WindowStats)
    (now : ℚ) (h : s4.confirmedActivity = .Calibrating) :
    (confirmStep s4 stats now).confirmedActivity = rawActivityOf s4 stats := by
  obtain ⟨-, -, -, -, -, -, -, -, -, -, -, -, -, -, a15⟩ :=
    updateActivityConfirmation_frame s4 (rawActivityOf s4 stats) now
  obtain ⟨-, -, -, -, -, -, -, n8, -, -, -, -, -, -, -, -⟩ :=
    updateNetworkConfirmation_frame
      (updateActivityConfirmation s4 (rawActivityOf s4 stats) now)
      (rawNetworkOf s4 stats) now
  rw [confirmStep]
  split_ifs with h1 h2 h3
  · rfl
  · rfl
  · show (updateNetworkConfirmation _ _ _).confirmedActivity = _
    rcases a15 with ha | ha
    · exact absurd (by rw [n8, ha, h]) h1
    · rw [n8]
      exact ha
  · show (updateNetworkConfirmation _ _ _).confirmedActivity = _
    rcases a15 with ha | ha
    · exact absurd (by rw [n8, ha, h]) h1
    · rw [n8]
      exact ha

/-- `confirmStep` either keeps the confirmed activity or moves it to the raw
classification. -/
lemma confirmStep_confirmedActivity (s4 : AnalyzerState) (stats : WindowStats)
    (now : ℚ) :
    (confirmStep s4 stats now).confirmedActivity = s4.confirmedActivity ∨
    (confirmStep s4 stats now).confirmedActivity = rawActivityOf s4 stats := by
  obtain ⟨-, -, -, -, -, -, -, -, -, -, -, -, -, -, a15⟩ :=
    updateActivityConfirmation_frame s4 (rawActivityOf s4 stats) now
  obtain ⟨-, -, -, -, -, -, -, n8, -, -, -, -, -, -, -, -⟩ :=
    updateNetworkConfirmation_frame
      (updateActivityConfirmation s4 (rawActivityOf s4 stats) now)
      (rawNetworkOf s4 stats) now
  rw [confirmStep]
  split_ifs with h1 h2 h3
  · exact Or.inr rfl
  · exact Or.inr rfl
  · show (updateNetworkConfirmation _ _ _).confirmedActivity = _ ∨
      (updateNetworkConfirmation _ _ _).confirmedActivity = _
    rw [n8]
    exact a15
  · show (updateNetworkConfirmation _ _ _).confirmedActivity = _ ∨
      (updateNetworkConfirmation _ _ _).confirmedActivity = _
    rw [n8]
    exact a15

/-- `classifyPrep` leaves the window and the confirmation fields untouched and
performs exactly the history pushes of `pushHistories`. -/
lemma classifyPrep_frame (s : AnalyzerState) (stats : WindowStats) :
    (classifyPrep s stats).slidingWindow = s.slidingWindow ∧
    (classifyPrep s stats).confirmedActivity = s.confirmedActivity ∧
    (classifyPrep s stats).confirmedNetwork = s.confirmedNetwork ∧
    (classifyPrep s stats).pendingNetwork = s.pendingNetwork ∧
    (classifyPrep s stats).medianHistory =
      capHistory (if isExtremeOutlier stats.median s.medianHistory
        then s.medianHistory else s.medianHistory ++ [stats.median]) ∧
    (classifyPrep s stats).jitterHistory =
      capHistory (s.jitterHistory ++ [stats.jitter]) := by
  obtain ⟨d1, d2, d3, -, -, -, -, d8, -, -, -, d12, d13, -, -⟩ :=
    detectTransition_frame s stats.median
  obtain ⟨p1, p2, p3, -, -, -, -, p8, -, -, -, p12, p13, -, -, -, -, -⟩ :=
    pushHistories_spec (detectTransition s stats.median) stats
  obtain ⟨u1, u2, u3, -, u5, -, -, -, u9, u10, -, -, -, -, -⟩ :=
    updateAdaptiveThresholds_frame
      (pushHistories (detectTransition s stats.median) stats)
  rw [classifyPrep]
  refine ⟨?_, ?_, ?_, ?_, ?_, ?_⟩
  · rw [u1, p3, d1]
  · rw [u5, p8, d8]
  · rw [u9, p12, d12]
  · rw [u10, p13, d13]
  · rw [u2, p1, d2]
  · rw [u3, p2, d3]

set_option maxHeartbeats 1000000 in
/-- The fields of the `classifyStep` result, in terms of its sub-steps. -/
lemma classifyStep_proj (s : AnalyzerState) (stats : WindowStats) (now : ℚ) :
    (classifyStep s stats now).1.activityState =
      (confirmStep (classifyPrep s stats) stats now).confirmedActivity ∧
    (classifyStep s stats now).1.rawActivityState =
      rawActivityOf (classifyPrep s stats) stats ∧
    (classifyStep s stats now).1.networkType =
      (confirmStep (classifyPrep s stats) stats now).confirmedNetwork ∧
    (classifyStep s stats now).1.rawNetworkType =
      rawNetworkOf (classifyPrep s stats) stats ∧
    (classifyStep s stats now).1.jitterThreshold =
      (confirmStep (classifyPrep s stats) stats now).cachedJitterThreshold ∧
    (classifyStep s stats now).2 = confirmStep (classifyPrep s stats) stats now := by
  simp only [classifyStep]
  exact ⟨trivial, trivial, trivial, trivial, trivial, trivial⟩

/-- C2 (amended): while the activity is confirmed `Offline`, a non-timeout
`determineState` call with `currentState = Offline` first resets the confirmed
activity to `Calibrating`; if the window is still short of
`minSamplesForJitter` samples the call reports `Calibrating`, but as soon as
window statistics are available the first-valid-classification fast path
immediately re-confirms the raw classification, so the very same call can
already report a confirmed `Online` or `Standby`. -/
theorem offline_reentry_amended (s : AnalyzerState) (now : ℚ)
    (h : s.confirmedActivity = .Offline) :
    (s.slidingWindow.length < config.minSamplesForJitter →
        (determineState s .Offline false now).1.activityState = .Calibrating ∧
        (determineState s .Offline false now).2.confirmedActivity =
          .Calibrating) ∧
    (config.minSamplesForJitter ≤ s.slidingWindow.length →
        (determineState s .Offline false now).1.activityState =
          (determineState s .Offline false now).1.rawActivityState ∧
        ((determineState s .Offline false now).1.rawActivityState = .Online ∨
          (determineState s .Offline false now).1.rawActivityState =
            .Standby)) := by
  rw [determineState, if_neg (by simp), if_pos (⟨rfl, h⟩ :
    ActivityState.Offline = ActivityState.Offline ∧
      s.confirmedActivity = ActivityState.Offline)]
  dsimp only
  set s1 : AnalyzerState := { s with
    confirmedActivity := ActivityState.Calibrating,
    confirmedNetwork := NetworkType.Unknown } with hs1
  have hwin : s1.slidingWindow = s.slidingWindow := by rw [hs1]
  constructor
  · intro hlt
    rw [show calculateWindowStats s1 = none from by
      rw [calculateWindowStats, if_pos (by rw [hwin]; exact hlt)]]
    exact ⟨rfl, by rw [hs1]⟩
  · intro hge
    have hws : calculateWindowStats s1 =
        some { median := calculateMedian s.slidingWindow
               jitter := calculateIQR s.slidingWindow } := by
      rw [calculateWindowStats, if_neg (by rw [hwin]; exact not_lt.mpr hge), hwin]
    rw [hws]
    dsimp only
    have hp := classifyStep_proj s1
      { median := calculateMedian s.slidingWindow
        jitter := calculateIQR s.slidingWindow } now
    rw [hp.1, hp.2.1]
    constructor
    · exact confirmStep_calibrating _ _ _
        ((classifyPrep_frame s1 _).2.1.trans (by rw [hs1]))
    · exact (rawActivityOf_cases _ _).symm

/-- A freshly reset analyzer whose activity has been confirmed Offline. -/
def offlineEmptyState : AnalyzerState :=
  { initAnalyzer with confirmedActivity := .Offline }

/-- C2 witness: leaving offline with an empty window reports Calibrating. -/
theorem offline_reentry_amended_witness :
    (determineState offlineEmptyState .Offline false 0).1.activityState
      = .Calibrating := by
  exact ((offline_reentry_amended offlineEmptyState 0 rfl).1
    (by simp [offlineEmptyState, initAnalyzer, config.minSamplesForJitter])).1

/-! ## C8 -/

/-- With fewer than 10 history points the outlier bound is inactive. -/
lemma isExtremeOutlier_short {history : List ℚ} (v : ℚ)
    (h : history.length < 10) : isExtremeOutlier v history = false := by
  rw [isExtremeOutlier, if_pos h]

/-- The outlier test fires exactly on 10+ history points with the value above
`Q3 + 3×IQR`. -/
lemma isExtremeOutlier_iff (v : ℚ) (history : List ℚ) :
    isExtremeOutlier v history = true ↔
      (10 ≤ history.length ∧
        getPercentile history 75 +
          3 * (getPercentile history 75 - getPercentile history 25) < v) := by
  rw [isExtremeOutlier]
  split_ifs with hl
  · simp only [Bool.false_eq_true, false_iff]
    rintro ⟨h10, -⟩
    omega
  · dsimp only
    simp only [decide_eq_true_eq, gt_iff_lt]
    constructor
    · intro hv
      exact ⟨by omega, hv⟩
    · rintro ⟨-, hv⟩
      exact hv

/-- A non-timeout `determineState` call with enough window samples reduces to
`classifyStep` on a state differing from the input at most in the confirmed
activity/network (the offline re-entry reset). -/
lemma determineState_snd_eq (s : AnalyzerState) (cur : ActivityState) (now : ℚ)
    (hlen : config.minSamplesForJitter ≤ s.slidingWindow.length) :
    ∃ s1 : AnalyzerState,
      s1.slidingWindow = s.slidingWindow ∧
      s1.medianHistory = s.medianHistory ∧
      s1.jitterHistory = s.jitterHistory ∧
      s1.cachedJitterThreshold = s.cachedJitterThreshold ∧
      (s.confirmedActivity ≠ .Offline →
        s1.confirmedActivity = s.confirmedActivity) ∧
      (s1.confirmedNetwork = s.confirmedNetwork ∨
        s1.confirmedNetwork = .Unknown) ∧
      s1.pendingNetwork = s.pendingNetwork ∧
      s1.pendingActivity = s.pendingActivity ∧
      determineState s cur false now =
        classifyStep s1 { median := calculateMedian s.slidingWindow
                          jitter := calculateIQR s.slidingWindow } now := by
  by_cases hA : (cur = ActivityState.Offline ∧
      s.confirmedActivity = ActivityState.Offline)
  · refine ⟨{ s with
        confirmedActivity := ActivityState.Calibrating,
        confirmedNetwork := NetworkType.Unknown }, rfl, rfl, rfl, rfl,
      fun hno => absurd hA.2 hno, Or.inr rfl, rfl, rfl, ?_⟩
    rw [determineState, if_neg (by simp), if_pos hA]
    dsimp only
    rw [show calculateWindowStats { s with
        confirmedActivity := ActivityState.Calibrating,
        confirmedNetwork := NetworkType.Unknown } =
        some { median := calculateMedian s.slidingWindow
               jitter := calculateIQR s.slidingWindow } from by
      rw [calculateWindowStats, if_neg (by simpa using not_lt.mpr hlen)]]
  · refine ⟨s, rfl, rfl, rfl, rfl, fun _ => rfl, Or.inl rfl, rfl, rfl, ?_⟩
    rw [determineState, if_neg (by simp), if_neg hA]
    dsimp only
    rw [show calculateWindowStats s =
        some { median := calculateMedian s.slidingWindow
               jitter := calculateIQR s.slidingWindow } from by
      rw [calculateWindowStats, if_neg (by simpa using not_lt.mpr hlen)]]

/-- A non-timeout `determineState` call with too few window samples takes the
calibrating early return. -/
lemma determineState_snd_eq_null (s : AnalyzerState) (cur : ActivityState)
    (now : ℚ) (hlen : s.slidingWindow.length < config.minSamplesForJitter) :
    ∃ s1 : AnalyzerState,
      s1.slidingWindow = s.slidingWindow ∧
      s1.cachedJitterThreshold = s.cachedJitterThreshold ∧
      (s.confirmedActivity ≠ .Offline →
        s1.confirmedActivity = s.confirmedActivity) ∧
      (s1.confirmedNetwork = s.confirmedNetwork ∨
        s1.confirmedNetwork = .Unknown) ∧
      s1.pendingNetwork = s.pendingNetwork ∧
      determineState s cur false now = (calibratingResult, s1) := by
  by_cases hA : (cur = ActivityState.Offline ∧
      s.confirmedActivity = ActivityState.Offline)
  · refine ⟨{ s with
        confirmedActivity := ActivityState.Calibrating,
        confirmedNetwork := NetworkType.Unknown }, rfl, rfl,
      fun hno => absurd hA.2 hno, Or.inr rfl, rfl, ?_⟩
    rw [determineState, if_neg (by simp), if_pos hA]
    dsimp only
    rw [show calculateWindowStats { s with
        confirmedActivity := ActivityState.Calibrating,
        confirmedNetwork := NetworkType.Unknown } = none from by
      rw [calculateWindowStats, if_pos (by simpa using hlen)]]
  · refine ⟨s, rfl, rfl, fun _ => rfl, Or.inl rfl, rfl, ?_⟩
    rw [determineState, if_neg (by simp), if_neg hA]
    dsimp only
    rw [show calculateWindowStats s = none from by
      rw [calculateWindowStats, if_pos (by simpa using hlen)]]

/-- C8: whenever `determineState` evaluates a window, the window jitter is
appended to `jitterHistory` unconditionally, the window median is appended to
`medianHistory` unless the history already has at least 10 entries and the
median exceeds `Q3 + 3×IQR` of that history (below 10 entries every median is
accepted), and the raw sliding window itself is left untouched. -/
theorem history_insertion_outlier_rejection (s : AnalyzerState)
    (cur : ActivityState) (now : ℚ)
    (hlen : config.minSamplesForJitter ≤ s.slidingWindow.length) :
    (determineState s cur false now).2.jitterHistory =
      capHistory (s.jitterHistory ++ [calculateIQR s.slidingWindow]) ∧
    (determineState s cur false now).2.medianHistory =
      capHistory (if isExtremeOutlier (calculateMedian s.slidingWindow)
            s.medianHistory
        then s.medianHistory
        else s.medianHistory ++ [calculateMedian s.slidingWindow]) ∧
    (isExtremeOutlier (calculateMedian s.slidingWindow) s.medianHistory = true ↔
      (10 ≤ s.medianHistory.length ∧
        getPercentile s.medianHistory 75 +
          3 * (getPercentile s.medianHistory 75 -
                getPercentile s.medianHistory 25)
          < calculateMedian s.slidingWindow)) ∧
    (s.medianHistory.length < 10 →
      (determineState s cur false now).2.medianHistory =
        capHistory (s.medianHistory ++ [calculateMedian s.slidingWindow])) ∧
    (determineState s cur false now).2.slidingWindow = s.slidingWindow := by
  obtain ⟨s1, hw, hmh, hjh, -, -, -, -, -, heq⟩ :=
    determineState_snd_eq s cur now hlen
  have h2 := (classifyStep_proj s1
    { median := calculateMedian s.slidingWindow
      jitter := calculateIQR s.slidingWindow } now).2.2.2.2.2
  have hcf := confirmStep_frame (classifyPrep s1
    { median := calculateMedian s.slidingWindow
      jitter := calculateIQR s.slidingWindow })
    { median := calculateMedian s.slidingWindow
      jitter := calculateIQR s.slidingWindow } now
  have hpf := classifyPrep_frame s1
    { median := calculateMedian s.slidingWindow
      jitter := calculateIQR s.slidingWindow }
  refine ⟨?_, ?_, isExtremeOutlier_iff _ _, ?_, ?_⟩
  · rw [heq, h2, hcf.2.2.1, hpf.2.2.2.2.2, hjh]
  · rw [heq, h2, hcf.2.1, hpf.2.2.2.2.1, hmh]
  · intro h10
    rw [heq, h2, hcf.2.1, hpf.2.2.2.2.1, hmh]
    rw [if_neg (by
      rw [isExtremeOutlier_short _ h10]
      simp)]
  · rw [heq, h2, hcf.1, hpf.1, hw]

/-- C8 witness: at the five-sample window of 100 ms RTTs with empty histories,
the call appends median 100 to the median history and leaves the window
unchanged. -/
theorem history_insertion_outlier_rejection_witness :
    (determineState offlineWindowState .Offline false 0).2.medianHistory =
      [100] ∧
    (determineState offlineWindowState .Offline false 0).2.slidingWindow =
      [100, 100, 100, 100, 100] := by
  have h := history_insertion_outlier_rejection offlineWindowState .Offline 0
    (by simp [offlineWindowState, initAnalyzer, config.minSamplesForJitter])
  constructor
  · have hm := h.2.2.2.1 (by simp [offlineWindowState, initAnalyzer])
    rw [hm]
    rw [show offlineWindowState.medianHistory = ([] : List ℚ) from rfl,
      show offlineWindowState.slidingWindow = [100, 100, 100, 100, 100] from rfl,
      cex_median]
    rw [capHistory, if_neg (by simp [config.globalHistoryLimit])]
    rfl
  · have := h.2.2.2.2
    rw [this]
    rfl

/-! ## C10 -/

/-- With a non-positive cached jitter threshold the raw network is Wi-Fi. -/
lemma rawNetworkOf_of_cache_nonpos (s4 : AnalyzerState) (stats : WindowStats)
    (h : ¬ 0 < s4.cachedJitterThreshold) : rawNetworkOf s4 stats = .WiFi := by
  rw [rawNetworkOf, if_neg]
  rintro ⟨h0, -⟩
  exact h h0

/-- A raw network matching neither the confirmed nor the pending network
starts a fresh pending candidate and leaves the confirmed network alone. -/
lemma updateNetworkConfirmation_fresh (s : AnalyzerState) (raw : NetworkType)
    (now : ℚ) (hne : ¬ raw = s.confirmedNetwork)
    (hnp : ¬ s.pendingNetwork = some raw) :
    (updateNetworkConfirmation s raw now).confirmedNetwork =
      s.confirmedNetwork ∧
    (updateNetworkConfirmation s raw now).pendingNetwork = some raw := by
  rw [updateNetworkConfirmation, if_neg hne, if_neg hnp]
  exact ⟨rfl, rfl⟩

/-- `confirmStep` moves the confirmed network only to the raw classification
and the pending network only to `none` or the raw classification. -/
lemma confirmStep_network (s4 : AnalyzerState) (stats : WindowStats) (now : ℚ) :
    ((confirmStep s4 stats now).confirmedNetwork = s4.confirmedNetwork ∨
      (confirmStep s4 stats now).confirmedNetwork = rawNetworkOf s4 stats) ∧
    ((confirmStep s4 stats now).pendingNetwork = s4.pendingNetwork ∨
      (confirmStep s4 stats now).pendingNetwork = none ∨
      (confirmStep s4 stats now).pendingNetwork =
        some (rawNetworkOf s4 stats)) := by
  obtain ⟨-, -, -, -, -, -, -, a8, a9, -, -, -, -, -, -⟩ :=
    updateActivityConfirmation_frame s4 (rawActivityOf s4 stats) now
  obtain ⟨-, -, -, -, -, -, -, -, -, -, -, -, -, -, n15, n16⟩ :=
    updateNetworkConfirmation_frame
      (updateActivityConfirmation s4 (rawActivityOf s4 stats) now)
      (rawNetworkOf s4 stats) now
  have hpend : (updateNetworkConfirmation
      (updateActivityConfirmation s4 (rawActivityOf s4 stats) now)
      (rawNetworkOf s4 stats) now).pendingNetwork = s4.pendingNetwork ∨
      (updateNetworkConfirmation
        (updateActivityConfirmation s4 (rawActivityOf s4 stats) now)
        (rawNetworkOf s4 stats) now).pendingNetwork = none ∨
      (updateNetworkConfirmation
        (updateActivityConfirmation s4 (rawActivityOf s4 stats) now)
        (rawNetworkOf s4 stats) now).pendingNetwork =
          some (rawNetworkOf s4 stats) := by
    rcases n16 with h | h | h
    · exact Or.inl (h.trans a9)
    · exact Or.inr (Or.inl h)
    · exact Or.inr (Or.inr h)
  have hconf : (updateNetworkConfirmation
      (updateActivityConfirmation s4 (rawActivityOf s4 stats) now)
      (rawNetworkOf s4 stats) now).confirmedNetwork = s4.confirmedNetwork ∨
      (updateNetworkConfirmation
        (updateActivityConfirmation s4 (rawActivityOf s4 stats) now)
        (rawNetworkOf s4 stats) now).confirmedNetwork =
          rawNetworkOf s4 stats := by
    rcases n15 with h | h
    · exact Or.inl (h.trans a8)
    · exact Or.inr h
  rw [confirmStep]
  split_ifs with h1 h2 h3
  · exact ⟨Or.inr rfl, hpend⟩
  · exact ⟨hconf, hpend⟩
  · exact ⟨Or.inr rfl, hpend⟩
  · exact ⟨hconf, hpend⟩

/-- With a non-positive cache, a confirmed-Unknown network and no pending
candidate, `confirmStep` leaves the confirmed network Unknown: the fast path
needs a positive jitter threshold and the fresh Wi-Fi candidate starts at
count 1. -/
lemma confirmStep_unknown (s4 : AnalyzerState) (stats : WindowStats) (now : ℚ)
    (hc : ¬ 0 < s4.cachedJitterThreshold)
    (hU : s4.confirmedNetwork = .Unknown) (hp : s4.pendingNetwork = none) :
    (confirmStep s4 stats now).confirmedNetwork = .Unknown := by
  have hraw : rawNetworkOf s4 stats = .WiFi := rawNetworkOf_of_cache_nonpos s4 stats hc
  obtain ⟨-, -, -, -, a5, -, -, a8, a9, -, -, -, -, -, -⟩ :=
    updateActivityConfirmation_frame s4 (rawActivityOf s4 stats) now
  have h6 := updateNetworkConfirmation_fresh
    (updateActivityConfirmation s4 (rawActivityOf s4 stats) now)
    (rawNetworkOf s4 stats) now
    (by rw [hraw, a8, hU]; simp)
    (by rw [a9, hp]; simp)
  obtain ⟨-, -, -, -, n5, -, -, -, -, -, -, -, -, -, -, -⟩ :=
    updateNetworkConfirmation_frame
      (updateActivityConfirmation s4 (rawActivityOf s4 stats) now)
      (rawNetworkOf s4 stats) now
  have hcache : (updateNetworkConfirmation
      (updateActivityConfirmation s4 (rawActivityOf s4 stats) now)
      (rawNetworkOf s4 stats) now).cachedJitterThreshold =
        s4.cachedJitterThreshold := n5.trans a5
  have hconfU : (updateNetworkConfirmation
      (updateActivityConfirmation s4 (rawActivityOf s4 stats) now)
      (rawNetworkOf s4 stats) now).confirmedNetwork = .Unknown := by
    rw [h6.1, a8, hU]
  rw [confirmStep]
  split_ifs with h1 h2 h3
  · exact absurd (lt_of_lt_of_le h2.2 (le_of_eq hcache)) hc
  · exact hconfU
  · exact absurd (lt_of_lt_of_le h3.2 (le_of_eq hcache)) hc
  · exact hconfU

/-- C10: whenever the reported jitter threshold of a non-timeout
`determineState` call is 0 (no adaptive jitter threshold computed), the raw
network classification is never LTE (and is Wi-Fi whenever a window was
evaluated); the LTE-free property of confirmed and pending network is
preserved, and with a confirmed-Unknown network and no pending candidate the
fast-path initialization away from Unknown does not happen. -/
theorem jitter_threshold_zero_wifi (s : AnalyzerState) (cur : ActivityState)
    (now : ℚ) :
    ((determineState s cur false now).1.jitterThreshold = 0 →
        (determineState s cur false now).1.rawNetworkType ≠ .LTE) ∧
    (config.minSamplesForJitter ≤ s.slidingWindow.length →
        (determineState s cur false now).1.jitterThreshold = 0 →
        (determineState s cur false now).1.rawNetworkType = .WiFi) ∧
    ((determineState s cur false now).1.jitterThreshold = 0 →
        s.confirmedNetwork ≠ .LTE → s.pendingNetwork ≠ some .LTE →
        (determineState s cur false now).1.networkType ≠ .LTE ∧
        (determineState s cur false now).2.confirmedNetwork ≠ .LTE ∧
        (determineState s cur false now).2.pendingNetwork ≠ some .LTE) ∧
    ((determineState s cur false now).1.jitterThreshold = 0 →
        s.confirmedNetwork = .Unknown → s.pendingNetwork = none →
        (determineState s cur false now).2.confirmedNetwork = .Unknown) := by
  by_cases hlen : s.slidingWindow.length < config.minSamplesForJitter
  · obtain ⟨s1, -, -, -, hcN, hpN, heq⟩ :=
      determineState_snd_eq_null s cur now hlen
    rw [heq]
    dsimp only
    refine ⟨?_, ?_, ?_, ?_⟩
    · intro _
      simp [calibratingResult]
    · intro hge _
      exact absurd hge (not_le.mpr hlen)
    · intro _ hcne hpne
      refine ⟨by simp [calibratingResult], ?_, ?_⟩
      · rcases hcN with h | h <;> rw [h]
        · exact hcne
        · simp
      · rw [hpN]
        exact hpne
    · intro _ hU _
      rcases hcN with h | h <;> rw [h]
      exact hU
  · push_neg at hlen
    obtain ⟨s1, -, -, -, -, -, hcN, hpN, -, heq⟩ :=
      determineState_snd_eq s cur now hlen
    rw [heq]
    have hp := classifyStep_proj s1
      { median := calculateMedian s.slidingWindow
        jitter := calculateIQR s.slidingWindow } now
    have hcf := confirmStep_frame (classifyPrep s1
      { median := calculateMedian s.slidingWindow
        jitter := calculateIQR s.slidingWindow })
      { median := calculateMedian s.slidingWindow
        jitter := calculateIQR s.slidingWindow } now
    have hpfr := classifyPrep_frame s1
      { median := calculateMedian s.slidingWindow
        jitter := calculateIQR s.slidingWindow }
    have hjt : (classifyStep s1
        { median := calculateMedian s.slidingWindow
          jitter := calculateIQR s.slidingWindow } now).1.jitterThreshold =
        (classifyPrep s1
          { median := calculateMedian s.slidingWindow
            jitter := calculateIQR s.slidingWindow }).cachedJitterThreshold := by
      rw [hp.2.2.2.2.1, hcf.2.2.2.2.1]
    refine ⟨?_, ?_, ?_, ?_⟩
    · intro h0
      rw [hjt] at h0
      rw [hp.2.2.2.1, rawNetworkOf_of_cache_nonpos _ _ (by rw [h0]; exact lt_irrefl 0)]
      simp
    · intro _ h0
      rw [hjt] at h0
      rw [hp.2.2.2.1, rawNetworkOf_of_cache_nonpos _ _ (by rw [h0]; exact lt_irrefl 0)]
    · intro h0 hcne hpne
      rw [hjt] at h0
      have hraw := rawNetworkOf_of_cache_nonpos _
        ({ median := calculateMedian s.slidingWindow
           jitter := calculateIQR s.slidingWindow } : WindowStats)
        (by rw [h0]; exact lt_irrefl 0)
      have hnet := confirmStep_network (classifyPrep s1
        { median := calculateMedian s.slidingWindow
          jitter := calculateIQR s.slidingWindow })
        { median := calculateMedian s.slidingWindow
          jitter := calculateIQR s.slidingWindow } now
      have hs4N : (classifyPrep s1
          { median := calculateMedian s.slidingWindow
            jitter := calculateIQR s.slidingWindow }).confirmedNetwork ≠ .LTE := by
        rw [hpfr.2.2.1]
        rcases hcN with h | h <;> rw [h]
        · exact hcne
        · simp
      have hs4P : (classifyPrep s1
          { median := calculateMedian s.slidingWindow
            jitter := calculateIQR s.slidingWindow }).pendingNetwork ≠
            some .LTE := by
        rw [hpfr.2.2.2.1, hpN]
        exact hpne
      have hcfN : (confirmStep (classifyPrep s1
          { median := calculateMedian s.slidingWindow
            jitter := calculateIQR s.slidingWindow })
          { median := calculateMedian s.slidingWindow
            jitter := calculateIQR s.slidingWindow } now).confirmedNetwork ≠
            .LTE := by
        rcases hnet.1 with h | h <;> rw [h]
        · exact hs4N
        · rw [hraw]
          simp
      refine ⟨?_, ?_, ?_⟩
      · rw [hp.2.2.1]
        exact hcfN
      · rw [hp.2.2.2.2.2]
        exact hcfN
      · rw [hp.2.2.2.2.2]
        rcases hnet.2 with h | h | h <;> rw [h]
        · exact hs4P
        · simp
        · rw [hraw]
          simp
    · intro h0 hU hpnone
      rw [hjt] at h0
      rw [hp.2.2.2.2.2]
      refine confirmStep_unknown _ _ now (by rw [h0]; exact lt_irrefl 0) ?_ ?_
      · rw [hpfr.2.2.1]
        rcases hcN with h | h <;> rw [h]
        exact hU
      · rw [hpfr.2.2.2.1, hpN, hpnone]

/-- C10 witness: on a fresh analyzer (jitter threshold 0, empty window) the
confirmed network stays Unknown. -/
theorem jitter_threshold_zero_wifi_witness :
    (determineState initAnalyzer .Online false 0).1.jitterThreshold = 0 ∧
    (determineState initAnalyzer .Online false 0).2.confirmedNetwork =
      .Unknown := by
  have hdet : determineState initAnalyzer .Online false 0 =
      (calibratingResult, initAnalyzer) := rfl
  refine ⟨by rw [hdet]; rfl, ?_⟩
  exact (jitter_threshold_zero_wifi initAnalyzer .Online 0).2.2.2
    (by rw [hdet]; rfl) rfl rfl

/-! ## C3 -/

/-- `addMeasurement` never changes the confirmed activity. -/
lemma addMeasurement_confirmedActivity (s : AnalyzerState) (rtt : ℚ) :
    (addMeasurement s rtt).2.confirmedActivity = s.confirmedActivity := by
  rw [addMeasurement]
  split_ifs <;> rfl

/-- `classifyStep` cannot produce a confirmed `Offline` activity when the
incoming state is not `Offline`: the raw classifications are only
`Online`/`Standby`. -/
lemma classifyStep_not_offline (s : AnalyzerState) (stats : WindowStats)
    (now : ℚ) (h : s.confirmedActivity ≠ .Offline) :
    (classifyStep s stats now).1.activityState ≠ .Offline ∧
    (classifyStep s stats now).2.confirmedActivity ≠ .Offline := by
  have hp := classifyStep_proj s stats now
  have hd := confirmStep_confirmedActivity (classifyPrep s stats) stats now
  have hpa := (classifyPrep_frame s stats).2.1
  have hok : (confirmStep (classifyPrep s stats) stats now).confirmedActivity ≠
      .Offline := by
    rcases hd with h2 | h2
    · rw [h2, hpa]
      exact h
    · rw [h2]
      rcases rawActivityOf_cases (classifyPrep s stats) stats with h3 | h3 <;>
        rw [h3] <;> simp
  exact ⟨by rw [hp.1]; exact hok, by rw [hp.2.2.2.2.2]; exact hok⟩

/-- A non-timeout `determineState` call cannot flip to `Offline` unless the
analyzer was already confirmed Offline. -/
lemma determineState_not_offline (s : AnalyzerState) (cur : ActivityState)
    (now : ℚ) (h : s.confirmedActivity ≠ .Offline) :
    (determineState s cur false now).1.activityState ≠ .Offline ∧
    (determineState s cur false now).2.confirmedActivity ≠ .Offline := by
  by_cases hlen : s.slidingWindow.length < config.minSamplesForJitter
  · obtain ⟨s1, -, -, hcA, -, -, heq⟩ := determineState_snd_eq_null s cur now hlen
    rw [heq]
    dsimp only
    exact ⟨by simp [calibratingResult], by rw [hcA h]; exact h⟩
  · push_neg at hlen
    obtain ⟨s1, -, -, -, -, hcA, -, -, -, heq⟩ :=
      determineState_snd_eq s cur now hlen
    rw [heq]
    exact classifyStep_not_offline s1 _ now (by rw [hcA h]; exact h)

/-- C3: a probe timeout increments the per-device consecutive-timeout counter
(starting it at 1 for an unseen device); the device is flipped to `Offline`
exactly when the incremented counter reaches 3; any ACK resets the counter to
0 before the sample is processed; hence timeout, timeout, ACK — starting from
a zeroed counter and a non-Offline device with a non-Offline analyzer — never
produces an `Offline` state at any of the three steps. -/
theorem consecutive_timeouts_offline_policy (m : DeviceMetrics)
    (a : AnalyzerState) (t1 t2 rtt n1 n2 n3 : ℚ) :
    ((handleProbeTimeout none t1 n1).consecutiveTimeouts = 1 ∧
      (handleProbeTimeout none t1 n1).activityState = .Calibrating) ∧
    ((handleProbeTimeout (some m) t1 n1).consecutiveTimeouts =
        m.consecutiveTimeouts + 1 ∧
      (handleProbeTimeout (some m) t1 n1).activityState =
        (if 3 ≤ m.consecutiveTimeouts + 1 then .Offline else m.activityState)) ∧
    (∀ om : Option DeviceMetrics,
      (addMeasurementForDevice om a rtt n3).1.consecutiveTimeouts = 0) ∧
    (m.consecutiveTimeouts = 0 → m.activityState ≠ .Offline →
      a.confirmedActivity ≠ .Offline →
      (handleProbeTimeout (some m) t1 n1).activityState ≠ .Offline ∧
      (handleProbeTimeout (some (handleProbeTimeout (some m) t1 n1))
          t2 n2).activityState ≠ .Offline ∧
      (addMeasurementForDevice
          (some (handleProbeTimeout (some (handleProbeTimeout (some m) t1 n1))
            t2 n2)) a rtt n3).1.activityState ≠ .Offline) := by
  refine ⟨⟨rfl, rfl⟩, ?_, ?_, ?_⟩
  · constructor
    · rw [handleProbeTimeout]
      dsimp only
      split_ifs <;> rfl
    · rw [handleProbeTimeout]
      dsimp only
      split_ifs with h
      · rfl
      · rfl
  · intro om
    rw [addMeasurementForDevice.eq_def]
    cases om <;> (dsimp only; split_ifs <;> rfl)
  · intro h0 hm ha
    have h1s : (handleProbeTimeout (some m) t1 n1).activityState =
        m.activityState := by
      rw [handleProbeTimeout]
      dsimp only
      split_ifs with h
      · exfalso
        simp only [h0] at h
        omega
      · rfl
    have h1c : (handleProbeTimeout (some m) t1 n1).consecutiveTimeouts = 1 := by
      rw [handleProbeTimeout]
      dsimp only
      split_ifs <;> simp [h0]
    have h2s : (handleProbeTimeout (some (handleProbeTimeout (some m) t1 n1))
        t2 n2).activityState = m.activityState := by
      rw [handleProbeTimeout]
      dsimp only
      split_ifs with h
      · exfalso
        simp only [h1c] at h
        omega
      · rw [h1s]
    refine ⟨by rw [h1s]; exact hm, by rw [h2s]; exact hm, ?_⟩
    rw [addMeasurementForDevice]
    dsimp only
    split_ifs with hr hcap
    · exact (determineState_not_offline (addMeasurement a rtt).2 _ n3
        (by rw [addMeasurement_confirmedActivity]; exact ha)).1
    · exact (determineState_not_offline (addMeasurement a rtt).2 _ n3
        (by rw [addMeasurement_confirmedActivity]; exact ha)).1
    · simp

/-- A freshly seen device with no timeouts yet. -/
def calibratingMetrics : DeviceMetrics where
  rttHistory := []
  activityState := .Calibrating
  networkType := .Unknown
  lastRtt := 0
  lastUpdate := 0
  consecutiveTimeouts := 0
  lastAnalysis := none

/-- C3 witness: two timeouts followed by a (slow) ACK leave the device
non-Offline. -/
theorem consecutive_timeouts_offline_policy_witness :
    (addMeasurementForDevice
        (some (handleProbeTimeout (some (handleProbeTimeout
          (some calibratingMetrics) 10000 1)) 10000 2))
        initAnalyzer 12000 3).1.activityState ≠ .Offline := by
  have h := (consecutive_timeouts_offline_policy calibratingMetrics initAnalyzer
    10000 10000 12000 1 2 3).2.2.2 rfl
    (by simp [calibratingMetrics])
    (by simp [initAnalyzer])
  exact h.2.2

end DeviceTracker
